import Mathlib

/-!
Animation and movement state machine of the DudeMonster character

Shallow embedding of the class DudeMonster of src/M5-Sprite.cpp
(constructor, handleInput, startAttack, setState, update, takeDamage).

Modelling conventions.
* The C++ type float is a parameter F of the embedding, with its operations,
  comparisons, literals and conversion from int given by the class FloatArith.
  Every comparison and every arithmetic operation of the source is kept, in
  the order of the source. Theorems stated for every F use no law of
  arithmetic, so they hold of the program whatever the rounding of its
  operations is. Two instances are given: exact rational arithmetic, and
  the IEEE 754 binary32 arithmetic F32 (round to nearest, ties to even, with
  overflow to infinity and not-a-number values; the sign of zero is not
  represented, and every operation is rounded on its own, without fused
  multiply-add and without excess precision).
* The int field currentFrame is an unbounded integer and the C++ remainder is
  the truncating one (Int.tmod). On every state reachable from the constructor
  the index stays below 8, far from the int range.
* The two function-local statics of handleInput (lastAttack1, lastAttack2)
  are explicit fields of the state.
* The keyboard sampled through glfwGetKey is an explicit record of booleans.
* Graphics handles (VAO, VBO, EBO, textures, shaderProgram) play no role in
  the state machine and are left out.
-/

namespace M5Sprite

/-- Animation states, the enum AnimationState of the source (lines 69-81). -/
inductive AnimationState where
  | IDLE
  | WALK
  | RUN
  | JUMP
  | ATTACK1
  | ATTACK2
  | HURT
  | DEATH
  | CLIMB
  | PUSH
  | THROW
  deriving DecidableEq, Repr

open AnimationState

/-! ## Arithmetic of the float type -/

/-- Operations the program uses on its float type F: zero and one, the four
arithmetic operations, negation, the two comparisons, decimal literals, and
the conversions from int and from unsigned literals. No law is assumed. -/
class FloatArith (F : Type) extends Zero F, One F, Add F, Sub F, Mul F, Div F, Neg F, LT F,
    LE F, OfScientific F, IntCast F, NatCast F where
  decEq : DecidableEq F
  decLt : ∀ a b : F, Decidable (a < b)
  decLe : ∀ a b : F, Decidable (a ≤ b)

instance (priority := low) instDecEqOfFloatArith {F : Type} [FloatArith F] : DecidableEq F :=
  FloatArith.decEq

instance (priority := 2000) instDecLtOfFloatArith {F : Type} [FloatArith F] (a b : F) :
    Decidable (a < b) :=
  FloatArith.decLt a b

instance (priority := 2000) instDecLeOfFloatArith {F : Type} [FloatArith F] (a b : F) :
    Decidable (a ≤ b) :=
  FloatArith.decLe a b

/-- Exact arithmetic: the rationals with their own operations. -/
instance instFloatArithRat : FloatArith ℚ where
  decEq := inferInstance
  decLt := inferInstance
  decLe := inferInstance

/-! ## Single precision arithmetic (IEEE 754 binary32) -/

/-- Power of two with an integer exponent, as a rational. -/
def pow2 (e : Int) : ℚ :=
  if 0 ≤ e then ((2 ^ e.toNat : Nat) : ℚ) else 1 / ((2 ^ (-e).toNat : Nat) : ℚ)

/-- Number of binary digits of n, computed with the given fuel. -/
def bitLength : Nat → Nat → Nat
  | 0, _ => 0
  | fuel + 1, n => if n = 0 then 0 else bitLength fuel (n / 2) + 1

/-- Floor of the binary logarithm of a positive rational. -/
def floorLog2 (q : ℚ) : Int :=
  let e0 : Int := (bitLength q.num.natAbs q.num.natAbs : Int) - (bitLength q.den q.den : Int)
  if pow2 e0 ≤ q then e0 else e0 - 1

/-- Round a non-negative rational to the nearest integer, ties to even. -/
def roundHalfEven (q : ℚ) : Int :=
  let f : Int := Rat.floor q
  let r : ℚ := q - f
  if r < 1 / 2 then f
  else if 1 / 2 < r then f + 1
  else if f % 2 = 0 then f else f + 1

/-- Values of the IEEE 754 binary32 format: the finite values, as rationals,
the two infinities and not-a-number. The sign of zero is not represented. -/
inductive F32 where
  | fin (q : ℚ)
  | pinf
  | ninf
  | nan
  deriving DecidableEq

/-- Round a positive rational to binary32, round to nearest, ties to even:
24 significant bits, least exponent -126 (subnormals below), overflow to
infinity from 2 ^ 128. -/
def roundPos (q : ℚ) : F32 :=
  let e : Int := max (floorLog2 q) (-126)
  let quantum : ℚ := pow2 (e - 23)
  let r : ℚ := (roundHalfEven (q / quantum) : ℚ) * quantum
  if pow2 128 ≤ r then F32.pinf else F32.fin r

/-- Round a rational to binary32. -/
def round32 (q : ℚ) : F32 :=
  if q = 0 then F32.fin 0
  else if 0 < q then roundPos q
  else
    match roundPos (-q) with
    | F32.fin r => F32.fin (-r)
    | _ => F32.ninf

namespace F32

/-- Negation. -/
def neg : F32 → F32
  | fin q => fin (-q)
  | pinf => ninf
  | ninf => pinf
  | nan => nan

/-- Addition, rounded. -/
def add : F32 → F32 → F32
  | nan, _ => nan
  | _, nan => nan
  | pinf, ninf => nan
  | ninf, pinf => nan
  | pinf, _ => pinf
  | _, pinf => pinf
  | ninf, _ => ninf
  | _, ninf => ninf
  | fin a, fin b => round32 (a + b)

/-- Subtraction, rounded. -/
def sub (a b : F32) : F32 := add a (neg b)

/-- Infinity with the sign of a non-zero rational. -/
def infOfSign (q : ℚ) : F32 := if 0 < q then pinf else ninf

/-- Multiplication, rounded. -/
def mul : F32 → F32 → F32
  | nan, _ => nan
  | _, nan => nan
  | pinf, pinf => pinf
  | pinf, ninf => ninf
  | ninf, pinf => ninf
  | ninf, ninf => pinf
  | pinf, fin b => if b = 0 then nan else infOfSign b
  | ninf, fin b => if b = 0 then nan else infOfSign (-b)
  | fin a, pinf => if a = 0 then nan else infOfSign a
  | fin a, ninf => if a = 0 then nan else infOfSign (-a)
  | fin a, fin b => round32 (a * b)

/-- Division, rounded; a zero divisor counts as positive zero. -/
def div : F32 → F32 → F32
  | nan, _ => nan
  | _, nan => nan
  | pinf, pinf => nan
  | pinf, ninf => nan
  | ninf, pinf => nan
  | ninf, ninf => nan
  | pinf, fin b => if b < 0 then ninf else pinf
  | ninf, fin b => if b < 0 then pinf else ninf
  | fin _, pinf => fin 0
  | fin _, ninf => fin 0
  | fin a, fin b => if b = 0 then (if a = 0 then nan else infOfSign a) else round32 (a / b)

/-- Comparison less-than; false when an operand is not-a-number. -/
def lt : F32 → F32 → Bool
  | nan, _ => false
  | _, nan => false
  | fin a, fin b => decide (a < b)
  | fin _, pinf => true
  | fin _, ninf => false
  | pinf, _ => false
  | ninf, ninf => false
  | ninf, _ => true

/-- Comparison less-or-equal; false when an operand is not-a-number. -/
def le : F32 → F32 → Bool
  | nan, _ => false
  | _, nan => false
  | fin a, fin b => decide (a ≤ b)
  | fin _, pinf => true
  | fin _, ninf => false
  | pinf, pinf => true
  | pinf, _ => false
  | ninf, _ => true

end F32

/-- Single precision arithmetic: every operation rounds its exact result. -/
instance instFloatArithF32 : FloatArith F32 where
  zero := F32.fin 0
  one := F32.fin 1
  add := F32.add
  sub := F32.sub
  mul := F32.mul
  div := F32.div
  neg := F32.neg
  lt a b := F32.lt a b = true
  le a b := F32.le a b = true
  ofScientific m s e := round32 (OfScientific.ofScientific m s e)
  intCast n := round32 n
  natCast n := round32 n
  decEq := inferInstance
  decLt _ _ := inferInstanceAs (Decidable (_ = true))
  decLe _ _ := inferInstanceAs (Decidable (_ = true))

/-! ## The entity -/

variable {F : Type} [FloatArith F]

set_option linter.unusedSectionVars false

/-- Simulation fields of class DudeMonster (lines 90-108) together with the
two statics of handleInput (lines 233-234). -/
structure DudeMonster (F : Type) where
  x : F
  y : F
  width : F
  height : F
  speed : F
  facingRight : Bool
  onGround : Bool
  velocityY : F
  currentState : AnimationState
  currentFrame : Int
  frameTimer : F
  frameDuration : F
  attackTimer : F
  hurtTimer : F
  isAttacking : Bool
  isHurt : Bool
  lastAttack1 : Bool
  lastAttack2 : Bool
  deriving DecidableEq

/-- Constant member gravity (line 95). -/
def gravity : F := -15

/-- Constant member jumpStrength (line 96). -/
def jumpStrength : F := 8

/-- Frame counts set by loadAnimations (lines 150-160). Every key of the map
is assigned there, so a lookup never inserts a default entry. -/
def frameCount : AnimationState → Int
  | IDLE => 4
  | WALK => 6
  | RUN => 6
  | JUMP => 8
  | ATTACK1 => 4
  | ATTACK2 => 6
  | HURT => 4
  | DEATH => 8
  | CLIMB => 4
  | PUSH => 6
  | THROW => 4

/-- Constructor of DudeMonster (lines 111-133); the statics start false. -/
def DudeMonster.init (posX posY w h moveSpeed : F) : DudeMonster F where
  x := posX
  y := posY
  width := w
  height := h
  speed := moveSpeed
  facingRight := true
  onGround := true
  velocityY := 0
  currentState := IDLE
  currentFrame := 0
  frameTimer := 0
  frameDuration := 0.1
  attackTimer := 0
  hurtTimer := 0
  isAttacking := false
  isHurt := false
  lastAttack1 := false
  lastAttack2 := false

/-- The player created by main (line 514). -/
def mainPlayer : DudeMonster F := DudeMonster.init 0 (-0.5) 0.4 0.5 4

/-- One sample of the keys read by handleInput through glfwGetKey. -/
structure Keys where
  leftShift : Bool
  keyA : Bool
  keyLeft : Bool
  keyD : Bool
  keyRight : Bool
  keyW : Bool
  keyUp : Bool
  keySpace : Bool
  keyZ : Bool
  keyX : Bool
  deriving DecidableEq

/-- No key held. -/
def Keys.none : Keys :=
  ⟨false, false, false, false, false, false, false, false, false, false⟩

/-- Frame duration chosen by the switch of setState (lines 282-296). -/
def switchFrameDuration : AnimationState → F
  | ATTACK1 => 0.08
  | ATTACK2 => 0.08
  | RUN => 0.08
  | HURT => 0.15
  | _ => 0.1

/-- Method setState (lines 275-298). -/
def setState (newState : AnimationState) (s : DudeMonster F) : DudeMonster F :=
  if s.currentState ≠ newState then
    { s with
      currentState := newState
      currentFrame := 0
      frameTimer := 0
      frameDuration := switchFrameDuration newState }
  else s

/-- Method startAttack (lines 268-273). -/
def startAttack (attackType : AnimationState) (s : DudeMonster F) : DudeMonster F :=
  setState attackType { s with isAttacking := true, attackTimer := 0, currentFrame := 0 }

/-- Method takeDamage (lines 347-354). -/
def takeDamage (s : DudeMonster F) : DudeMonster F :=
  if !s.isHurt then
    setState HURT { s with isHurt := true, hurtTimer := 0, currentFrame := 0 }
  else s

/-- Locals of handleInput after the horizontal movement block. -/
structure Movement (F : Type) where
  deltaX : F
  facingRight : Bool
  isMoving : Bool
  isRunning : Bool

/-- Horizontal movement block of handleInput (lines 201-222). -/
def horizontalMovement (k : Keys) (deltaTime : F) (s : DudeMonster F) : Movement F :=
  let shiftPressed := k.leftShift
  let m0 : Movement F := ⟨0, s.facingRight, false, false⟩
  let m1 : Movement F :=
    if k.keyA || k.keyLeft then
      ⟨m0.deltaX - s.speed * deltaTime * (if shiftPressed then 1.5 else 1), false, true,
        shiftPressed⟩
    else m0
  if k.keyD || k.keyRight then
    ⟨m1.deltaX + s.speed * deltaTime * (if shiftPressed then 1.5 else 1), true, true,
      shiftPressed⟩
  else m1

/-- Jump block of handleInput (lines 224-230). -/
def jumpInput (k : Keys) (s : DudeMonster F) : DudeMonster F :=
  if (k.keyW || k.keyUp || k.keySpace) && s.onGround then
    { s with velocityY := jumpStrength, onGround := false }
  else s

/-- Attack block of handleInput (lines 232-246). -/
def attackInput (k : Keys) (s : DudeMonster F) : DudeMonster F :=
  let attack1Pressed := k.keyZ
  let attack2Pressed := k.keyX
  let s1 :=
    if attack1Pressed && !s.lastAttack1 && !s.isAttacking then startAttack ATTACK1 s else s
  let s2 :=
    if attack2Pressed && !s1.lastAttack2 && !s1.isAttacking then startAttack ATTACK2 s1 else s1
  { s2 with lastAttack1 := attack1Pressed, lastAttack2 := attack2Pressed }

/-- Position update and screen bounds of handleInput (lines 248-254). -/
def moveAndClamp (deltaX : F) (s : DudeMonster F) : DudeMonster F :=
  let s1 := { s with x := s.x + deltaX }
  let halfWidth := s1.width / 2
  let s2 := if s1.x - halfWidth < -1 then { s1 with x := -1 + halfWidth } else s1
  if s2.x + halfWidth > 1 then { s2 with x := 1 - halfWidth } else s2

/-- Animation selection at the end of handleInput (lines 256-265). -/
def selectAnimation (isMoving isRunning : Bool) (s : DudeMonster F) : DudeMonster F :=
  if !s.isAttacking && !s.isHurt then
    if !s.onGround then setState JUMP s
    else if isMoving then setState (if isRunning then RUN else WALK) s
    else setState IDLE s
  else s

/-- Method handleInput (lines 198-266). -/
def handleInput (k : Keys) (deltaTime : F) (s : DudeMonster F) : DudeMonster F :=
  if s.isHurt then s
  else
    let m := horizontalMovement k deltaTime s
    let s1 := { s with facingRight := m.facingRight }
    let s2 := jumpInput k s1
    let s3 := attackInput k s2
    let s4 := moveAndClamp m.deltaX s3
    selectAnimation m.isMoving m.isRunning s4

/-- Attack timer block of update (lines 302-309). -/
def updateAttackTimer (deltaTime : F) (s : DudeMonster F) : DudeMonster F :=
  if s.isAttacking then
    let s1 := { s with attackTimer := s.attackTimer + deltaTime }
    let attackDuration : F := (frameCount s1.currentState : F) * s1.frameDuration
    if s1.attackTimer ≥ attackDuration then
      { s1 with isAttacking := false, attackTimer := 0 }
    else s1
  else s

/-- Hurt timer block of update (lines 311-317). -/
def updateHurtTimer (deltaTime : F) (s : DudeMonster F) : DudeMonster F :=
  if s.isHurt then
    let s1 := { s with hurtTimer := s.hurtTimer + deltaTime }
    if s1.hurtTimer ≥ 0.5 then { s1 with isHurt := false, hurtTimer := 0 } else s1
  else s

/-- Gravity block of update (lines 319-330). -/
def applyGravity (deltaTime : F) (s : DudeMonster F) : DudeMonster F :=
  if !s.onGround then
    let s1 := { s with velocityY := s.velocityY + gravity * deltaTime }
    let s2 := { s1 with y := s1.y + s1.velocityY * deltaTime }
    if s2.y ≤ -0.5 then { s2 with y := -0.5, velocityY := 0, onGround := true } else s2
  else s

/-- Animation frame block of update (lines 332-344). -/
def advanceFrame (deltaTime : F) (s : DudeMonster F) : DudeMonster F :=
  let s1 := { s with frameTimer := s.frameTimer + deltaTime }
  if s1.frameTimer ≥ s1.frameDuration then
    let s2 := { s1 with frameTimer := 0 }
    if s2.currentState = DEATH then
      if s2.currentFrame < frameCount s2.currentState - 1 then
        { s2 with currentFrame := s2.currentFrame + 1 }
      else s2
    else
      { s2 with currentFrame := (s2.currentFrame + 1).tmod (frameCount s2.currentState) }
  else s1

/-- Method update (lines 300-345). -/
def update (deltaTime : F) (s : DudeMonster F) : DudeMonster F :=
  advanceFrame deltaTime (applyGravity deltaTime (updateHurtTimer deltaTime
    (updateAttackTimer deltaTime s)))

/-- One call of a public mutating method of the entity. -/
inductive Call (F : Type) where
  | takeDamage
  | handleInput (k : Keys) (deltaTime : F)
  | startAttack (attackType : AnimationState)
  | setState (newState : AnimationState)
  | update (deltaTime : F)

/-- Effect of one call. -/
def step (c : Call F) (s : DudeMonster F) : DudeMonster F :=
  match c with
  | .takeDamage => takeDamage s
  | .handleInput k dt => handleInput k dt s
  | .startAttack a => startAttack a s
  | .setState a => setState a s
  | .update dt => update dt s

/-- Effect of a finite sequence of calls, first call first. -/
def run : List (Call F) → DudeMonster F → DudeMonster F
  | [], s => s
  | c :: cs, s => run cs (step c s)

/-- Effect of a sequence of update calls, first call first. -/
def updates : List F → DudeMonster F → DudeMonster F
  | [], s => s
  | dt :: dts, s => updates dts (update dt s)

/-! ## Predicates and reference functions used by the statements -/

/-- The frame index lies inside the sprite sheet of the current state. -/
def FrameInRange (s : DudeMonster F) : Prop :=
  0 ≤ s.currentFrame ∧ s.currentFrame < frameCount s.currentState

/-- Number of updates, among those with time steps dts, in which the frame
timer reaches the duration d: the timer starts at t, accumulates each time
step, and restarts from 0 after each update in which it reached d. This
follows the wording of the frame advance law, not the code. -/
def frameTicks (d : F) : F → List F → Nat
  | _, [] => 0
  | t, dt :: dts => if t + dt ≥ d then frameTicks d 0 dts + 1 else frameTicks d (t + dt) dts

/-- Frame index promised by the frame advance law after n frame advances
from frame 0: n modulo the frame count, except for DEATH where it saturates
at the last frame. This follows the wording of the law, not the code. -/
def frameAfter (S : AnimationState) (n : Nat) : Int :=
  if S = DEATH then min (n : Int) (frameCount DEATH - 1) else (n : Int) % frameCount S

/-- Key sample with only the right key D and the run modifier held. -/
def keysRunRight : Keys := { Keys.none with keyD := true, leftShift := true }

/-- Key sample with only the jump key W held. -/
def keysJump : Keys := { Keys.none with keyW := true }

/-- Key sample with only the attack key Z held. -/
def keysAttack1 : Keys := { Keys.none with keyZ := true }

/-- Key sample with both attack keys Z and X held. -/
def keysBothAttacks : Keys := { Keys.none with keyZ := true, keyX := true }

/-- Movement-derived animation state, in the words of the hurt expiry claim:
JUMP when not on the ground, otherwise RUN when a left or right key and shift
are held, WALK when a left or right key is held without shift, otherwise
IDLE. -/
def movementDerivedState (k : Keys) (onGround : Bool) : AnimationState :=
  if !onGround then JUMP
  else if (k.keyA || k.keyLeft || k.keyD || k.keyRight) && k.leftShift then RUN
  else if k.keyA || k.keyLeft || k.keyD || k.keyRight then WALK
  else IDLE

/-- Value of a running timer of update (hurtTimer or attackTimer) after the
calls of a sequence, when it stood at t before them: each update call adds its
time step to the timer, by the same addition and in the same order as the
statement timer += deltaTime of the code, and the other calls leave the timer
alone. -/
def timerAfter : F → List (Call F) → F
  | t, [] => t
  | t, .update dt :: cs => timerAfter (t + dt) cs
  | t, .takeDamage :: cs => timerAfter t cs
  | t, .handleInput _ _ :: cs => timerAfter t cs
  | t, .startAttack _ :: cs => timerAfter t cs
  | t, .setState _ :: cs => timerAfter t cs

/-- No update call of the sequence brings a running timer that stood at t to
the limit: at each update call the test of the code, timer >= limit taken
right after timer += deltaTime, fails. -/
def timerQuiet (limit : F) : F → List (Call F) → Prop
  | _, [] => True
  | t, .update dt :: cs => ¬ (t + dt ≥ limit) ∧ timerQuiet limit (t + dt) cs
  | t, .takeDamage :: cs => timerQuiet limit t cs
  | t, .handleInput _ _ :: cs => timerQuiet limit t cs
  | t, .startAttack _ :: cs => timerQuiet limit t cs
  | t, .setState _ :: cs => timerQuiet limit t cs

/-- The predicate timerQuiet is decidable. -/
instance instDecidableTimerQuiet (limit : F) :
    (t : F) → (cs : List (Call F)) → Decidable (timerQuiet limit t cs)
  | _, [] => inferInstanceAs (Decidable True)
  | t, .update dt :: cs =>
    have := instDecidableTimerQuiet limit (t + dt) cs
    inferInstanceAs (Decidable (¬ (t + dt ≥ limit) ∧ timerQuiet limit (t + dt) cs))
  | t, .takeDamage :: cs => instDecidableTimerQuiet limit t cs
  | t, .handleInput _ _ :: cs => instDecidableTimerQuiet limit t cs
  | t, .startAttack _ :: cs => instDecidableTimerQuiet limit t cs
  | t, .setState _ :: cs => instDecidableTimerQuiet limit t cs

/-- Effect of a sequence of handleInput calls, given as pairs of a key sample
and a time step, first call first. -/
def handleInputs : List (Keys × F) → DudeMonster F → DudeMonster F
  | [], s => s
  | p :: ps, s => handleInputs ps (handleInput p.1 p.2 s)

/-- Calls of the per-frame loop of main: takeDamage, handleInput, update. -/
def Call.isTick : Call F → Bool
  | .takeDamage => true
  | .handleInput _ _ => true
  | .update _ => true
  | .startAttack _ => false
  | .setState _ => false

/-- Some takeDamage call of the sequence, run from state s, arrives while the
hurt flag is clear, that is, it puts the entity into HURT. -/
def damageLands : List (Call F) → DudeMonster F → Bool
  | [], _ => false
  | .takeDamage :: cs, s => !s.isHurt || damageLands cs (takeDamage s)
  | .handleInput k dt :: cs, s => damageLands cs (handleInput k dt s)
  | .startAttack a :: cs, s => damageLands cs (startAttack a s)
  | .setState a :: cs, s => damageLands cs (setState a s)
  | .update dt :: cs, s => damageLands cs (update dt s)

/-- The stored frame duration is the one the switch of setState gives for the
current animation state. -/
def DurationConsistent (s : DudeMonster F) : Prop :=
  s.frameDuration = switchFrameDuration s.currentState

/-- In exact arithmetic, the horizontal position keeps the bounding box inside
the screen range. -/
def XInRange (s : DudeMonster ℚ) : Prop :=
  -1 + s.width / 2 ≤ s.x ∧ s.x ≤ 1 - s.width / 2

/-- The entity is not below the ground line, and when the ground-contact flag
is set it rests on the ground line with no vertical velocity. -/
def GroundInv (s : DudeMonster ℚ) : Prop :=
  -0.5 ≤ s.y ∧ (s.onGround = true → s.y = -0.5 ∧ s.velocityY = 0)

/-- The horizontal position is one the clamp of handleInput accepts: it is
the lower clamp value or the upper clamp value, computed as the code computes
them, or both clamp tests of the code fail on it. -/
def Clamped (s : DudeMonster F) : Prop :=
  s.x = -1 + s.width / 2 ∨ s.x = 1 - s.width / 2 ∨
    (¬ (s.x - s.width / 2 < -1) ∧ ¬ (s.x + s.width / 2 > 1))

/-- Key sample with the left key A and the right key D held together. -/
def keysLeftRight : Keys := { Keys.none with keyA := true, keyD := true }

/-- The player created by main, in exact arithmetic. -/
def mainPlayerExact : DudeMonster ℚ := mainPlayer

/-- The player created by main, in single precision arithmetic. -/
def mainPlayer32 : DudeMonster F32 := mainPlayer

/-! ## Frame lemmas: the fields each method leaves untouched -/

/-! Fields left untouched by setState. -/

@[simp]
theorem setState_x (a : AnimationState) (s : DudeMonster F) :
    (setState a s).x = s.x := by unfold setState; split <;> rfl

@[simp]
theorem setState_y (a : AnimationState) (s : DudeMonster F) :
    (setState a s).y = s.y := by unfold setState; split <;> rfl

@[simp]
theorem setState_width (a : AnimationState) (s : DudeMonster F) :
    (setState a s).width = s.width := by unfold setState; split <;> rfl

@[simp]
theorem setState_height (a : AnimationState) (s : DudeMonster F) :
    (setState a s).height = s.height := by unfold setState; split <;> rfl

@[simp]
theorem setState_speed (a : AnimationState) (s : DudeMonster F) :
    (setState a s).speed = s.speed := by unfold setState; split <;> rfl

@[simp]
theorem setState_facingRight (a : AnimationState) (s : DudeMonster F) :
    (setState a s).facingRight = s.facingRight := by unfold setState; split <;> rfl

@[simp]
theorem setState_onGround (a : AnimationState) (s : DudeMonster F) :
    (setState a s).onGround = s.onGround := by unfold setState; split <;> rfl

@[simp]
theorem setState_velocityY (a : AnimationState) (s : DudeMonster F) :
    (setState a s).velocityY = s.velocityY := by unfold setState; split <;> rfl

@[simp]
theorem setState_attackTimer (a : AnimationState) (s : DudeMonster F) :
    (setState a s).attackTimer = s.attackTimer := by unfold setState; split <;> rfl

@[simp]
theorem setState_hurtTimer (a : AnimationState) (s : DudeMonster F) :
    (setState a s).hurtTimer = s.hurtTimer := by unfold setState; split <;> rfl

@[simp]
theorem setState_isAttacking (a : AnimationState) (s : DudeMonster F) :
    (setState a s).isAttacking = s.isAttacking := by unfold setState; split <;> rfl

@[simp]
theorem setState_isHurt (a : AnimationState) (s : DudeMonster F) :
    (setState a s).isHurt = s.isHurt := by unfold setState; split <;> rfl

@[simp]
theorem setState_lastAttack1 (a : AnimationState) (s : DudeMonster F) :
    (setState a s).lastAttack1 = s.lastAttack1 := by unfold setState; split <;> rfl

@[simp]
theorem setState_lastAttack2 (a : AnimationState) (s : DudeMonster F) :
    (setState a s).lastAttack2 = s.lastAttack2 := by unfold setState; split <;> rfl

/-! Fields left untouched by startAttack. -/

@[simp]
theorem startAttack_x (a : AnimationState) (s : DudeMonster F) :
    (startAttack a s).x = s.x := by simp [startAttack]

@[simp]
theorem startAttack_y (a : AnimationState) (s : DudeMonster F) :
    (startAttack a s).y = s.y := by simp [startAttack]

@[simp]
theorem startAttack_width (a : AnimationState) (s : DudeMonster F) :
    (startAttack a s).width = s.width := by simp [startAttack]

@[simp]
theorem startAttack_height (a : AnimationState) (s : DudeMonster F) :
    (startAttack a s).height = s.height := by simp [startAttack]

@[simp]
theorem startAttack_speed (a : AnimationState) (s : DudeMonster F) :
    (startAttack a s).speed = s.speed := by simp [startAttack]

@[simp]
theorem startAttack_facingRight (a : AnimationState) (s : DudeMonster F) :
    (startAttack a s).facingRight = s.facingRight := by simp [startAttack]

@[simp]
theorem startAttack_onGround (a : AnimationState) (s : DudeMonster F) :
    (startAttack a s).onGround = s.onGround := by simp [startAttack]

@[simp]
theorem startAttack_velocityY (a : AnimationState) (s : DudeMonster F) :
    (startAttack a s).velocityY = s.velocityY := by simp [startAttack]

@[simp]
theorem startAttack_hurtTimer (a : AnimationState) (s : DudeMonster F) :
    (startAttack a s).hurtTimer = s.hurtTimer := by simp [startAttack]

@[simp]
theorem startAttack_isHurt (a : AnimationState) (s : DudeMonster F) :
    (startAttack a s).isHurt = s.isHurt := by simp [startAttack]

@[simp]
theorem startAttack_lastAttack1 (a : AnimationState) (s : DudeMonster F) :
    (startAttack a s).lastAttack1 = s.lastAttack1 := by simp [startAttack]

@[simp]
theorem startAttack_lastAttack2 (a : AnimationState) (s : DudeMonster F) :
    (startAttack a s).lastAttack2 = s.lastAttack2 := by simp [startAttack]

/-! Fields left untouched by takeDamage. -/

@[simp]
theorem takeDamage_x (s : DudeMonster F) :
    (takeDamage s).x = s.x := by unfold takeDamage; split <;> simp

@[simp]
theorem takeDamage_y (s : DudeMonster F) :
    (takeDamage s).y = s.y := by unfold takeDamage; split <;> simp

@[simp]
theorem takeDamage_width (s : DudeMonster F) :
    (takeDamage s).width = s.width := by unfold takeDamage; split <;> simp

@[simp]
theorem takeDamage_height (s : DudeMonster F) :
    (takeDamage s).height = s.height := by unfold takeDamage; split <;> simp

@[simp]
theorem takeDamage_speed (s : DudeMonster F) :
    (takeDamage s).speed = s.speed := by unfold takeDamage; split <;> simp

@[simp]
theorem takeDamage_facingRight (s : DudeMonster F) :
    (takeDamage s).facingRight = s.facingRight := by unfold takeDamage; split <;> simp

@[simp]
theorem takeDamage_onGround (s : DudeMonster F) :
    (takeDamage s).onGround = s.onGround := by unfold takeDamage; split <;> simp

@[simp]
theorem takeDamage_velocityY (s : DudeMonster F) :
    (takeDamage s).velocityY = s.velocityY := by unfold takeDamage; split <;> simp

@[simp]
theorem takeDamage_attackTimer (s : DudeMonster F) :
    (takeDamage s).attackTimer = s.attackTimer := by unfold takeDamage; split <;> simp

@[simp]
theorem takeDamage_isAttacking (s : DudeMonster F) :
    (takeDamage s).isAttacking = s.isAttacking := by unfold takeDamage; split <;> simp

@[simp]
theorem takeDamage_lastAttack1 (s : DudeMonster F) :
    (takeDamage s).lastAttack1 = s.lastAttack1 := by unfold takeDamage; split <;> simp

@[simp]
theorem takeDamage_lastAttack2 (s : DudeMonster F) :
    (takeDamage s).lastAttack2 = s.lastAttack2 := by unfold takeDamage; split <;> simp

/-! Fields left untouched by jumpInput. -/

@[simp]
theorem jumpInput_x (k : Keys) (s : DudeMonster F) :
    (jumpInput k s).x = s.x := by unfold jumpInput; split <;> rfl

@[simp]
theorem jumpInput_y (k : Keys) (s : DudeMonster F) :
    (jumpInput k s).y = s.y := by unfold jumpInput; split <;> rfl

@[simp]
theorem jumpInput_width (k : Keys) (s : DudeMonster F) :
    (jumpInput k s).width = s.width := by unfold jumpInput; split <;> rfl

@[simp]
theorem jumpInput_height (k : Keys) (s : DudeMonster F) :
    (jumpInput k s).height = s.height := by unfold jumpInput; split <;> rfl

@[simp]
theorem jumpInput_speed (k : Keys) (s : DudeMonster F) :
    (jumpInput k s).speed = s.speed := by unfold jumpInput; split <;> rfl

@[simp]
theorem jumpInput_facingRight (k : Keys) (s : DudeMonster F) :
    (jumpInput k s).facingRight = s.facingRight := by unfold jumpInput; split <;> rfl

@[simp]
theorem jumpInput_currentState (k : Keys) (s : DudeMonster F) :
    (jumpInput k s).currentState = s.currentState := by unfold jumpInput; split <;> rfl

@[simp]
theorem jumpInput_currentFrame (k : Keys) (s : DudeMonster F) :
    (jumpInput k s).currentFrame = s.currentFrame := by unfold jumpInput; split <;> rfl

@[simp]
theorem jumpInput_frameTimer (k : Keys) (s : DudeMonster F) :
    (jumpInput k s).frameTimer = s.frameTimer := by unfold jumpInput; split <;> rfl

@[simp]
theorem jumpInput_frameDuration (k : Keys) (s : DudeMonster F) :
    (jumpInput k s).frameDuration = s.frameDuration := by unfold jumpInput; split <;> rfl

@[simp]
theorem jumpInput_attackTimer (k : Keys) (s : DudeMonster F) :
    (jumpInput k s).attackTimer = s.attackTimer := by unfold jumpInput; split <;> rfl

@[simp]
theorem jumpInput_hurtTimer (k : Keys) (s : DudeMonster F) :
    (jumpInput k s).hurtTimer = s.hurtTimer := by unfold jumpInput; split <;> rfl

@[simp]
theorem jumpInput_isAttacking (k : Keys) (s : DudeMonster F) :
    (jumpInput k s).isAttacking = s.isAttacking := by unfold jumpInput; split <;> rfl

@[simp]
theorem jumpInput_isHurt (k : Keys) (s : DudeMonster F) :
    (jumpInput k s).isHurt = s.isHurt := by unfold jumpInput; split <;> rfl

@[simp]
theorem jumpInput_lastAttack1 (k : Keys) (s : DudeMonster F) :
    (jumpInput k s).lastAttack1 = s.lastAttack1 := by unfold jumpInput; split <;> rfl

@[simp]
theorem jumpInput_lastAttack2 (k : Keys) (s : DudeMonster F) :
    (jumpInput k s).lastAttack2 = s.lastAttack2 := by unfold jumpInput; split <;> rfl

/-! Fields left untouched by attackInput. -/

@[simp]
theorem attackInput_x (k : Keys) (s : DudeMonster F) :
    (attackInput k s).x = s.x := by simp only [attackInput]; split_ifs <;> simp

@[simp]
theorem attackInput_y (k : Keys) (s : DudeMonster F) :
    (attackInput k s).y = s.y := by simp only [attackInput]; split_ifs <;> simp

@[simp]
theorem attackInput_width (k : Keys) (s : DudeMonster F) :
    (attackInput k s).width = s.width := by simp only [attackInput]; split_ifs <;> simp

@[simp]
theorem attackInput_height (k : Keys) (s : DudeMonster F) :
    (attackInput k s).height = s.height := by simp only [attackInput]; split_ifs <;> simp

@[simp]
theorem attackInput_speed (k : Keys) (s : DudeMonster F) :
    (attackInput k s).speed = s.speed := by simp only [attackInput]; split_ifs <;> simp

@[simp]
theorem attackInput_facingRight (k : Keys) (s : DudeMonster F) :
    (attackInput k s).facingRight = s.facingRight := by simp only [attackInput]; split_ifs <;> simp

@[simp]
theorem attackInput_onGround (k : Keys) (s : DudeMonster F) :
    (attackInput k s).onGround = s.onGround := by simp only [attackInput]; split_ifs <;> simp

@[simp]
theorem attackInput_velocityY (k : Keys) (s : DudeMonster F) :
    (attackInput k s).velocityY = s.velocityY := by simp only [attackInput]; split_ifs <;> simp

@[simp]
theorem attackInput_hurtTimer (k : Keys) (s : DudeMonster F) :
    (attackInput k s).hurtTimer = s.hurtTimer := by simp only [attackInput]; split_ifs <;> simp

@[simp]
theorem attackInput_isHurt (k : Keys) (s : DudeMonster F) :
    (attackInput k s).isHurt = s.isHurt := by simp only [attackInput]; split_ifs <;> simp

/-! Fields left untouched by moveAndClamp. -/

@[simp]
theorem moveAndClamp_y (d : F) (s : DudeMonster F) :
    (moveAndClamp d s).y = s.y := by simp only [moveAndClamp]; split_ifs <;> rfl

@[simp]
theorem moveAndClamp_width (d : F) (s : DudeMonster F) :
    (moveAndClamp d s).width = s.width := by simp only [moveAndClamp]; split_ifs <;> rfl

@[simp]
theorem moveAndClamp_height (d : F) (s : DudeMonster F) :
    (moveAndClamp d s).height = s.height := by simp only [moveAndClamp]; split_ifs <;> rfl

@[simp]
theorem moveAndClamp_speed (d : F) (s : DudeMonster F) :
    (moveAndClamp d s).speed = s.speed := by simp only [moveAndClamp]; split_ifs <;> rfl

@[simp]
theorem moveAndClamp_facingRight (d : F) (s : DudeMonster F) :
    (moveAndClamp d s).facingRight = s.facingRight := by simp only [moveAndClamp]; split_ifs <;> rfl

@[simp]
theorem moveAndClamp_onGround (d : F) (s : DudeMonster F) :
    (moveAndClamp d s).onGround = s.onGround := by simp only [moveAndClamp]; split_ifs <;> rfl

@[simp]
theorem moveAndClamp_velocityY (d : F) (s : DudeMonster F) :
    (moveAndClamp d s).velocityY = s.velocityY := by simp only [moveAndClamp]; split_ifs <;> rfl

@[simp]
theorem moveAndClamp_currentState (d : F) (s : DudeMonster F) :
    (moveAndClamp d s).currentState = s.currentState := by simp only [moveAndClamp]; split_ifs <;> rfl

@[simp]
theorem moveAndClamp_currentFrame (d : F) (s : DudeMonster F) :
    (moveAndClamp d s).currentFrame = s.currentFrame := by simp only [moveAndClamp]; split_ifs <;> rfl

@[simp]
theorem moveAndClamp_frameTimer (d : F) (s : DudeMonster F) :
    (moveAndClamp d s).frameTimer = s.frameTimer := by simp only [moveAndClamp]; split_ifs <;> rfl

@[simp]
theorem moveAndClamp_frameDuration (d : F) (s : DudeMonster F) :
    (moveAndClamp d s).frameDuration = s.frameDuration := by simp only [moveAndClamp]; split_ifs <;> rfl

@[simp]
theorem moveAndClamp_attackTimer (d : F) (s : DudeMonster F) :
    (moveAndClamp d s).attackTimer = s.attackTimer := by simp only [moveAndClamp]; split_ifs <;> rfl

@[simp]
theorem moveAndClamp_hurtTimer (d : F) (s : DudeMonster F) :
    (moveAndClamp d s).hurtTimer = s.hurtTimer := by simp only [moveAndClamp]; split_ifs <;> rfl

@[simp]
theorem moveAndClamp_isAttacking (d : F) (s : DudeMonster F) :
    (moveAndClamp d s).isAttacking = s.isAttacking := by simp only [moveAndClamp]; split_ifs <;> rfl

@[simp]
theorem moveAndClamp_isHurt (d : F) (s : DudeMonster F) :
    (moveAndClamp d s).isHurt = s.isHurt := by simp only [moveAndClamp]; split_ifs <;> rfl

@[simp]
theorem moveAndClamp_lastAttack1 (d : F) (s : DudeMonster F) :
    (moveAndClamp d s).lastAttack1 = s.lastAttack1 := by simp only [moveAndClamp]; split_ifs <;> rfl

@[simp]
theorem moveAndClamp_lastAttack2 (d : F) (s : DudeMonster F) :
    (moveAndClamp d s).lastAttack2 = s.lastAttack2 := by simp only [moveAndClamp]; split_ifs <;> rfl

/-! Fields left untouched by selectAnimation. -/

@[simp]
theorem selectAnimation_x (m r : Bool) (s : DudeMonster F) :
    (selectAnimation m r s).x = s.x := by unfold selectAnimation; split_ifs <;> simp

@[simp]
theorem selectAnimation_y (m r : Bool) (s : DudeMonster F) :
    (selectAnimation m r s).y = s.y := by unfold selectAnimation; split_ifs <;> simp

@[simp]
theorem selectAnimation_width (m r : Bool) (s : DudeMonster F) :
    (selectAnimation m r s).width = s.width := by unfold selectAnimation; split_ifs <;> simp

@[simp]
theorem selectAnimation_height (m r : Bool) (s : DudeMonster F) :
    (selectAnimation m r s).height = s.height := by unfold selectAnimation; split_ifs <;> simp

@[simp]
theorem selectAnimation_speed (m r : Bool) (s : DudeMonster F) :
    (selectAnimation m r s).speed = s.speed := by unfold selectAnimation; split_ifs <;> simp

@[simp]
theorem selectAnimation_facingRight (m r : Bool) (s : DudeMonster F) :
    (selectAnimation m r s).facingRight = s.facingRight := by unfold selectAnimation; split_ifs <;> simp

@[simp]
theorem selectAnimation_onGround (m r : Bool) (s : DudeMonster F) :
    (selectAnimation m r s).onGround = s.onGround := by unfold selectAnimation; split_ifs <;> simp

@[simp]
theorem selectAnimation_velocityY (m r : Bool) (s : DudeMonster F) :
    (selectAnimation m r s).velocityY = s.velocityY := by unfold selectAnimation; split_ifs <;> simp

@[simp]
theorem selectAnimation_attackTimer (m r : Bool) (s : DudeMonster F) :
    (selectAnimation m r s).attackTimer = s.attackTimer := by unfold selectAnimation; split_ifs <;> simp

@[simp]
theorem selectAnimation_hurtTimer (m r : Bool) (s : DudeMonster F) :
    (selectAnimation m r s).hurtTimer = s.hurtTimer := by unfold selectAnimation; split_ifs <;> simp

@[simp]
theorem selectAnimation_isAttacking (m r : Bool) (s : DudeMonster F) :
    (selectAnimation m r s).isAttacking = s.isAttacking := by unfold selectAnimation; split_ifs <;> simp

@[simp]
theorem selectAnimation_isHurt (m r : Bool) (s : DudeMonster F) :
    (selectAnimation m r s).isHurt = s.isHurt := by unfold selectAnimation; split_ifs <;> simp

@[simp]
theorem selectAnimation_lastAttack1 (m r : Bool) (s : DudeMonster F) :
    (selectAnimation m r s).lastAttack1 = s.lastAttack1 := by unfold selectAnimation; split_ifs <;> simp

@[simp]
theorem selectAnimation_lastAttack2 (m r : Bool) (s : DudeMonster F) :
    (selectAnimation m r s).lastAttack2 = s.lastAttack2 := by unfold selectAnimation; split_ifs <;> simp

/-! Fields left untouched by handleInput. -/

@[simp]
theorem handleInput_y (k : Keys) (dt : F) (s : DudeMonster F) :
    (handleInput k dt s).y = s.y := by unfold handleInput; split <;> simp

@[simp]
theorem handleInput_width (k : Keys) (dt : F) (s : DudeMonster F) :
    (handleInput k dt s).width = s.width := by unfold handleInput; split <;> simp

@[simp]
theorem handleInput_height (k : Keys) (dt : F) (s : DudeMonster F) :
    (handleInput k dt s).height = s.height := by unfold handleInput; split <;> simp

@[simp]
theorem handleInput_speed (k : Keys) (dt : F) (s : DudeMonster F) :
    (handleInput k dt s).speed = s.speed := by unfold handleInput; split <;> simp

@[simp]
theorem handleInput_hurtTimer (k : Keys) (dt : F) (s : DudeMonster F) :
    (handleInput k dt s).hurtTimer = s.hurtTimer := by unfold handleInput; split <;> simp

@[simp]
theorem handleInput_isHurt (k : Keys) (dt : F) (s : DudeMonster F) :
    (handleInput k dt s).isHurt = s.isHurt := by unfold handleInput; split <;> simp

/-! Fields left untouched by updateAttackTimer. -/

@[simp]
theorem updateAttackTimer_x (dt : F) (s : DudeMonster F) :
    (updateAttackTimer dt s).x = s.x := by simp only [updateAttackTimer]; split_ifs <;> rfl

@[simp]
theorem updateAttackTimer_y (dt : F) (s : DudeMonster F) :
    (updateAttackTimer dt s).y = s.y := by simp only [updateAttackTimer]; split_ifs <;> rfl

@[simp]
theorem updateAttackTimer_width (dt : F) (s : DudeMonster F) :
    (updateAttackTimer dt s).width = s.width := by simp only [updateAttackTimer]; split_ifs <;> rfl

@[simp]
theorem updateAttackTimer_height (dt : F) (s : DudeMonster F) :
    (updateAttackTimer dt s).height = s.height := by simp only [updateAttackTimer]; split_ifs <;> rfl

@[simp]
theorem updateAttackTimer_speed (dt : F) (s : DudeMonster F) :
    (updateAttackTimer dt s).speed = s.speed := by simp only [updateAttackTimer]; split_ifs <;> rfl

@[simp]
theorem updateAttackTimer_facingRight (dt : F) (s : DudeMonster F) :
    (updateAttackTimer dt s).facingRight = s.facingRight := by simp only [updateAttackTimer]; split_ifs <;> rfl

@[simp]
theorem updateAttackTimer_onGround (dt : F) (s : DudeMonster F) :
    (updateAttackTimer dt s).onGround = s.onGround := by simp only [updateAttackTimer]; split_ifs <;> rfl

@[simp]
theorem updateAttackTimer_velocityY (dt : F) (s : DudeMonster F) :
    (updateAttackTimer dt s).velocityY = s.velocityY := by simp only [updateAttackTimer]; split_ifs <;> rfl

@[simp]
theorem updateAttackTimer_currentState (dt : F) (s : DudeMonster F) :
    (updateAttackTimer dt s).currentState = s.currentState := by simp only [updateAttackTimer]; split_ifs <;> rfl

@[simp]
theorem updateAttackTimer_currentFrame (dt : F) (s : DudeMonster F) :
    (updateAttackTimer dt s).currentFrame = s.currentFrame := by simp only [updateAttackTimer]; split_ifs <;> rfl

@[simp]
theorem updateAttackTimer_frameTimer (dt : F) (s : DudeMonster F) :
    (updateAttackTimer dt s).frameTimer = s.frameTimer := by simp only [updateAttackTimer]; split_ifs <;> rfl

@[simp]
theorem updateAttackTimer_frameDuration (dt : F) (s : DudeMonster F) :
    (updateAttackTimer dt s).frameDuration = s.frameDuration := by simp only [updateAttackTimer]; split_ifs <;> rfl

@[simp]
theorem updateAttackTimer_hurtTimer (dt : F) (s : DudeMonster F) :
    (updateAttackTimer dt s).hurtTimer = s.hurtTimer := by simp only [updateAttackTimer]; split_ifs <;> rfl

@[simp]
theorem updateAttackTimer_isHurt (dt : F) (s : DudeMonster F) :
    (updateAttackTimer dt s).isHurt = s.isHurt := by simp only [updateAttackTimer]; split_ifs <;> rfl

@[simp]
theorem updateAttackTimer_lastAttack1 (dt : F) (s : DudeMonster F) :
    (updateAttackTimer dt s).lastAttack1 = s.lastAttack1 := by simp only [updateAttackTimer]; split_ifs <;> rfl

@[simp]
theorem updateAttackTimer_lastAttack2 (dt : F) (s : DudeMonster F) :
    (updateAttackTimer dt s).lastAttack2 = s.lastAttack2 := by simp only [updateAttackTimer]; split_ifs <;> rfl

/-! Fields left untouched by updateHurtTimer. -/

@[simp]
theorem updateHurtTimer_x (dt : F) (s : DudeMonster F) :
    (updateHurtTimer dt s).x = s.x := by simp only [updateHurtTimer]; split_ifs <;> rfl

@[simp]
theorem updateHurtTimer_y (dt : F) (s : DudeMonster F) :
    (updateHurtTimer dt s).y = s.y := by simp only [updateHurtTimer]; split_ifs <;> rfl

@[simp]
theorem updateHurtTimer_width (dt : F) (s : DudeMonster F) :
    (updateHurtTimer dt s).width = s.width := by simp only [updateHurtTimer]; split_ifs <;> rfl

@[simp]
theorem updateHurtTimer_height (dt : F) (s : DudeMonster F) :
    (updateHurtTimer dt s).height = s.height := by simp only [updateHurtTimer]; split_ifs <;> rfl

@[simp]
theorem updateHurtTimer_speed (dt : F) (s : DudeMonster F) :
    (updateHurtTimer dt s).speed = s.speed := by simp only [updateHurtTimer]; split_ifs <;> rfl

@[simp]
theorem updateHurtTimer_facingRight (dt : F) (s : DudeMonster F) :
    (updateHurtTimer dt s).facingRight = s.facingRight := by simp only [updateHurtTimer]; split_ifs <;> rfl

@[simp]
theorem updateHurtTimer_onGround (dt : F) (s : DudeMonster F) :
    (updateHurtTimer dt s).onGround = s.onGround := by simp only [updateHurtTimer]; split_ifs <;> rfl

@[simp]
theorem updateHurtTimer_velocityY (dt : F) (s : DudeMonster F) :
    (updateHurtTimer dt s).velocityY = s.velocityY := by simp only [updateHurtTimer]; split_ifs <;> rfl

@[simp]
theorem updateHurtTimer_currentState (dt : F) (s : DudeMonster F) :
    (updateHurtTimer dt s).currentState = s.currentState := by simp only [updateHurtTimer]; split_ifs <;> rfl

@[simp]
theorem updateHurtTimer_currentFrame (dt : F) (s : DudeMonster F) :
    (updateHurtTimer dt s).currentFrame = s.currentFrame := by simp only [updateHurtTimer]; split_ifs <;> rfl

@[simp]
theorem updateHurtTimer_frameTimer (dt : F) (s : DudeMonster F) :
    (updateHurtTimer dt s).frameTimer = s.frameTimer := by simp only [updateHurtTimer]; split_ifs <;> rfl

@[simp]
theorem updateHurtTimer_frameDuration (dt : F) (s : DudeMonster F) :
    (updateHurtTimer dt s).frameDuration = s.frameDuration := by simp only [updateHurtTimer]; split_ifs <;> rfl

@[simp]
theorem updateHurtTimer_attackTimer (dt : F) (s : DudeMonster F) :
    (updateHurtTimer dt s).attackTimer = s.attackTimer := by simp only [updateHurtTimer]; split_ifs <;> rfl

@[simp]
theorem updateHurtTimer_isAttacking (dt : F) (s : DudeMonster F) :
    (updateHurtTimer dt s).isAttacking = s.isAttacking := by simp only [updateHurtTimer]; split_ifs <;> rfl

@[simp]
theorem updateHurtTimer_lastAttack1 (dt : F) (s : DudeMonster F) :
    (updateHurtTimer dt s).lastAttack1 = s.lastAttack1 := by simp only [updateHurtTimer]; split_ifs <;> rfl

@[simp]
theorem updateHurtTimer_lastAttack2 (dt : F) (s : DudeMonster F) :
    (updateHurtTimer dt s).lastAttack2 = s.lastAttack2 := by simp only [updateHurtTimer]; split_ifs <;> rfl

/-! Fields left untouched by applyGravity. -/

@[simp]
theorem applyGravity_x (dt : F) (s : DudeMonster F) :
    (applyGravity dt s).x = s.x := by simp only [applyGravity]; split_ifs <;> rfl

@[simp]
theorem applyGravity_width (dt : F) (s : DudeMonster F) :
    (applyGravity dt s).width = s.width := by simp only [applyGravity]; split_ifs <;> rfl

@[simp]
theorem applyGravity_height (dt : F) (s : DudeMonster F) :
    (applyGravity dt s).height = s.height := by simp only [applyGravity]; split_ifs <;> rfl

@[simp]
theorem applyGravity_speed (dt : F) (s : DudeMonster F) :
    (applyGravity dt s).speed = s.speed := by simp only [applyGravity]; split_ifs <;> rfl

@[simp]
theorem applyGravity_facingRight (dt : F) (s : DudeMonster F) :
    (applyGravity dt s).facingRight = s.facingRight := by simp only [applyGravity]; split_ifs <;> rfl

@[simp]
theorem applyGravity_currentState (dt : F) (s : DudeMonster F) :
    (applyGravity dt s).currentState = s.currentState := by simp only [applyGravity]; split_ifs <;> rfl

@[simp]
theorem applyGravity_currentFrame (dt : F) (s : DudeMonster F) :
    (applyGravity dt s).currentFrame = s.currentFrame := by simp only [applyGravity]; split_ifs <;> rfl

@[simp]
theorem applyGravity_frameTimer (dt : F) (s : DudeMonster F) :
    (applyGravity dt s).frameTimer = s.frameTimer := by simp only [applyGravity]; split_ifs <;> rfl

@[simp]
theorem applyGravity_frameDuration (dt : F) (s : DudeMonster F) :
    (applyGravity dt s).frameDuration = s.frameDuration := by simp only [applyGravity]; split_ifs <;> rfl

@[simp]
theorem applyGravity_attackTimer (dt : F) (s : DudeMonster F) :
    (applyGravity dt s).attackTimer = s.attackTimer := by simp only [applyGravity]; split_ifs <;> rfl

@[simp]
theorem applyGravity_hurtTimer (dt : F) (s : DudeMonster F) :
    (applyGravity dt s).hurtTimer = s.hurtTimer := by simp only [applyGravity]; split_ifs <;> rfl

@[simp]
theorem applyGravity_isAttacking (dt : F) (s : DudeMonster F) :
    (applyGravity dt s).isAttacking = s.isAttacking := by simp only [applyGravity]; split_ifs <;> rfl

@[simp]
theorem applyGravity_isHurt (dt : F) (s : DudeMonster F) :
    (applyGravity dt s).isHurt = s.isHurt := by simp only [applyGravity]; split_ifs <;> rfl

@[simp]
theorem applyGravity_lastAttack1 (dt : F) (s : DudeMonster F) :
    (applyGravity dt s).lastAttack1 = s.lastAttack1 := by simp only [applyGravity]; split_ifs <;> rfl

@[simp]
theorem applyGravity_lastAttack2 (dt : F) (s : DudeMonster F) :
    (applyGravity dt s).lastAttack2 = s.lastAttack2 := by simp only [applyGravity]; split_ifs <;> rfl

/-! Fields left untouched by advanceFrame. -/

@[simp]
theorem advanceFrame_x (dt : F) (s : DudeMonster F) :
    (advanceFrame dt s).x = s.x := by simp only [advanceFrame]; split_ifs <;> rfl

@[simp]
theorem advanceFrame_y (dt : F) (s : DudeMonster F) :
    (advanceFrame dt s).y = s.y := by simp only [advanceFrame]; split_ifs <;> rfl

@[simp]
theorem advanceFrame_width (dt : F) (s : DudeMonster F) :
    (advanceFrame dt s).width = s.width := by simp only [advanceFrame]; split_ifs <;> rfl

@[simp]
theorem advanceFrame_height (dt : F) (s : DudeMonster F) :
    (advanceFrame dt s).height = s.height := by simp only [advanceFrame]; split_ifs <;> rfl

@[simp]
theorem advanceFrame_speed (dt : F) (s : DudeMonster F) :
    (advanceFrame dt s).speed = s.speed := by simp only [advanceFrame]; split_ifs <;> rfl

@[simp]
theorem advanceFrame_facingRight (dt : F) (s : DudeMonster F) :
    (advanceFrame dt s).facingRight = s.facingRight := by simp only [advanceFrame]; split_ifs <;> rfl

@[simp]
theorem advanceFrame_onGround (dt : F) (s : DudeMonster F) :
    (advanceFrame dt s).onGround = s.onGround := by simp only [advanceFrame]; split_ifs <;> rfl

@[simp]
theorem advanceFrame_velocityY (dt : F) (s : DudeMonster F) :
    (advanceFrame dt s).velocityY = s.velocityY := by simp only [advanceFrame]; split_ifs <;> rfl

@[simp]
theorem advanceFrame_currentState (dt : F) (s : DudeMonster F) :
    (advanceFrame dt s).currentState = s.currentState := by simp only [advanceFrame]; split_ifs <;> rfl

@[simp]
theorem advanceFrame_frameDuration (dt : F) (s : DudeMonster F) :
    (advanceFrame dt s).frameDuration = s.frameDuration := by simp only [advanceFrame]; split_ifs <;> rfl

@[simp]
theorem advanceFrame_attackTimer (dt : F) (s : DudeMonster F) :
    (advanceFrame dt s).attackTimer = s.attackTimer := by simp only [advanceFrame]; split_ifs <;> rfl

@[simp]
theorem advanceFrame_hurtTimer (dt : F) (s : DudeMonster F) :
    (advanceFrame dt s).hurtTimer = s.hurtTimer := by simp only [advanceFrame]; split_ifs <;> rfl

@[simp]
theorem advanceFrame_isAttacking (dt : F) (s : DudeMonster F) :
    (advanceFrame dt s).isAttacking = s.isAttacking := by simp only [advanceFrame]; split_ifs <;> rfl

@[simp]
theorem advanceFrame_isHurt (dt : F) (s : DudeMonster F) :
    (advanceFrame dt s).isHurt = s.isHurt := by simp only [advanceFrame]; split_ifs <;> rfl

@[simp]
theorem advanceFrame_lastAttack1 (dt : F) (s : DudeMonster F) :
    (advanceFrame dt s).lastAttack1 = s.lastAttack1 := by simp only [advanceFrame]; split_ifs <;> rfl

@[simp]
theorem advanceFrame_lastAttack2 (dt : F) (s : DudeMonster F) :
    (advanceFrame dt s).lastAttack2 = s.lastAttack2 := by simp only [advanceFrame]; split_ifs <;> rfl

/-! Fields left untouched by update. -/

@[simp]
theorem update_x (dt : F) (s : DudeMonster F) :
    (update dt s).x = s.x := by simp [update]

@[simp]
theorem update_width (dt : F) (s : DudeMonster F) :
    (update dt s).width = s.width := by simp [update]

@[simp]
theorem update_height (dt : F) (s : DudeMonster F) :
    (update dt s).height = s.height := by simp [update]

@[simp]
theorem update_speed (dt : F) (s : DudeMonster F) :
    (update dt s).speed = s.speed := by simp [update]

@[simp]
theorem update_facingRight (dt : F) (s : DudeMonster F) :
    (update dt s).facingRight = s.facingRight := by simp [update]

@[simp]
theorem update_currentState (dt : F) (s : DudeMonster F) :
    (update dt s).currentState = s.currentState := by simp [update]

@[simp]
theorem update_frameDuration (dt : F) (s : DudeMonster F) :
    (update dt s).frameDuration = s.frameDuration := by simp [update]

@[simp]
theorem update_lastAttack1 (dt : F) (s : DudeMonster F) :
    (update dt s).lastAttack1 = s.lastAttack1 := by simp [update]

@[simp]
theorem update_lastAttack2 (dt : F) (s : DudeMonster F) :
    (update dt s).lastAttack2 = s.lastAttack2 := by simp [update]


/-! ## Effect of setState, startAttack and takeDamage on the fields they write -/

@[simp]
theorem setState_currentState (a : AnimationState) (s : DudeMonster F) :
    (setState a s).currentState = a := by
  unfold setState
  split
  · rfl
  · rename_i h
    exact not_not.mp h

theorem setState_currentFrame (a : AnimationState) (s : DudeMonster F) :
    (setState a s).currentFrame = if s.currentState = a then s.currentFrame else 0 := by
  unfold setState
  by_cases h : s.currentState = a <;> simp [h]

theorem setState_frameTimer (a : AnimationState) (s : DudeMonster F) :
    (setState a s).frameTimer = if s.currentState = a then s.frameTimer else 0 := by
  unfold setState
  by_cases h : s.currentState = a <;> simp [h]

theorem setState_frameDuration (a : AnimationState) (s : DudeMonster F) :
    (setState a s).frameDuration =
      if s.currentState = a then s.frameDuration else switchFrameDuration a := by
  unfold setState
  by_cases h : s.currentState = a <;> simp [h]

theorem setState_of_eq (a : AnimationState) (s : DudeMonster F) (h : s.currentState = a) :
    setState a s = s := by
  simp [setState, h]

@[simp]
theorem startAttack_currentState (a : AnimationState) (s : DudeMonster F) :
    (startAttack a s).currentState = a := by
  simp [startAttack]

@[simp]
theorem startAttack_currentFrame (a : AnimationState) (s : DudeMonster F) :
    (startAttack a s).currentFrame = 0 := by
  simp [startAttack, setState_currentFrame]

@[simp]
theorem startAttack_isAttacking (a : AnimationState) (s : DudeMonster F) :
    (startAttack a s).isAttacking = true := by
  simp [startAttack]

@[simp]
theorem startAttack_attackTimer (a : AnimationState) (s : DudeMonster F) :
    (startAttack a s).attackTimer = 0 := by
  simp [startAttack]

theorem startAttack_frameTimer (a : AnimationState) (s : DudeMonster F) :
    (startAttack a s).frameTimer = if s.currentState = a then s.frameTimer else 0 := by
  simp [startAttack, setState_frameTimer]

theorem startAttack_frameDuration (a : AnimationState) (s : DudeMonster F) :
    (startAttack a s).frameDuration =
      if s.currentState = a then s.frameDuration else switchFrameDuration a := by
  simp [startAttack, setState_frameDuration]

theorem takeDamage_of_hurt (s : DudeMonster F) (h : s.isHurt = true) : takeDamage s = s := by
  simp [takeDamage, h]

theorem takeDamage_of_not_hurt (s : DudeMonster F) (h : s.isHurt = false) :
    takeDamage s = setState HURT { s with isHurt := true, hurtTimer := 0, currentFrame := 0 } := by
  simp [takeDamage, h]

@[simp]
theorem takeDamage_isHurt (s : DudeMonster F) : (takeDamage s).isHurt = true := by
  cases h : s.isHurt
  · simp [takeDamage_of_not_hurt s h]
  · simp [takeDamage_of_hurt s h, h]

theorem takeDamage_hurtTimer (s : DudeMonster F) (h : s.isHurt = false) :
    (takeDamage s).hurtTimer = 0 := by
  simp [takeDamage_of_not_hurt s h]

theorem takeDamage_currentState (s : DudeMonster F) (h : s.isHurt = false) :
    (takeDamage s).currentState = HURT := by
  simp [takeDamage_of_not_hurt s h]

/-! ## Frame index range -/

theorem frameCount_pos (a : AnimationState) : 0 < frameCount a := by
  cases a <;> decide

theorem frameInRange_congr {s t : DudeMonster F} (hf : t.currentFrame = s.currentFrame)
    (hs : t.currentState = s.currentState) (h : FrameInRange s) : FrameInRange t := by
  unfold FrameInRange at *
  rw [hf, hs]
  exact h

theorem frameInRange_of_zero {s : DudeMonster F} (h : s.currentFrame = 0) : FrameInRange s := by
  unfold FrameInRange
  rw [h]
  exact ⟨le_refl 0, frameCount_pos _⟩

theorem setState_frameInRange (a : AnimationState) {s : DudeMonster F} (h : FrameInRange s) :
    FrameInRange (setState a s) := by
  by_cases hs : s.currentState = a
  · rw [setState_of_eq a s hs]
    exact h
  · apply frameInRange_of_zero
    simp [setState_currentFrame, hs]

theorem startAttack_frameInRange (a : AnimationState) (s : DudeMonster F) :
    FrameInRange (startAttack a s) :=
  frameInRange_of_zero (startAttack_currentFrame a s)

theorem takeDamage_frameInRange {s : DudeMonster F} (h : FrameInRange s) :
    FrameInRange (takeDamage s) := by
  cases hh : s.isHurt
  · rw [takeDamage_of_not_hurt s hh]
    apply setState_frameInRange
    exact frameInRange_of_zero rfl
  · rw [takeDamage_of_hurt s hh]
    exact h

theorem attackInput_frameInRange (k : Keys) {s : DudeMonster F} (h : FrameInRange s) :
    FrameInRange (attackInput k s) := by
  simp only [attackInput]
  split_ifs
  · exact frameInRange_congr rfl rfl (startAttack_frameInRange _ _)
  · exact frameInRange_congr rfl rfl (startAttack_frameInRange _ _)
  · exact frameInRange_congr rfl rfl (startAttack_frameInRange _ _)
  · exact frameInRange_congr rfl rfl h

theorem selectAnimation_frameInRange (m r : Bool) {s : DudeMonster F} (h : FrameInRange s) :
    FrameInRange (selectAnimation m r s) := by
  unfold selectAnimation
  split_ifs <;> first | exact setState_frameInRange _ h | exact h

theorem handleInput_frameInRange (k : Keys) (dt : F) {s : DudeMonster F} (h : FrameInRange s) :
    FrameInRange (handleInput k dt s) := by
  unfold handleInput
  split
  · exact h
  · apply selectAnimation_frameInRange
    apply frameInRange_congr (moveAndClamp_currentFrame _ _) (moveAndClamp_currentState _ _)
    apply attackInput_frameInRange
    apply frameInRange_congr (jumpInput_currentFrame _ _) (jumpInput_currentState _ _)
    exact frameInRange_congr rfl rfl h

theorem advanceFrame_frameInRange (dt : F) {s : DudeMonster F} (h : FrameInRange s) :
    FrameInRange (advanceFrame dt s) := by
  obtain ⟨h0, h1⟩ := h
  simp only [advanceFrame]
  split_ifs with hT hD hL
  · exact ⟨by show 0 ≤ s.currentFrame + 1; omega, by show s.currentFrame + 1 < frameCount s.currentState; omega⟩
  · exact ⟨h0, h1⟩
  · exact ⟨Int.tmod_nonneg _ (by omega), Int.tmod_lt_of_pos _ (frameCount_pos _)⟩
  · exact ⟨h0, h1⟩

theorem update_frameInRange (dt : F) {s : DudeMonster F} (h : FrameInRange s) :
    FrameInRange (update dt s) := by
  unfold update
  apply advanceFrame_frameInRange
  apply frameInRange_congr (applyGravity_currentFrame _ _) (applyGravity_currentState _ _)
  apply frameInRange_congr (updateHurtTimer_currentFrame _ _) (updateHurtTimer_currentState _ _)
  exact frameInRange_congr (updateAttackTimer_currentFrame _ _)
    (updateAttackTimer_currentState _ _) h

theorem step_frameInRange (c : Call F) {s : DudeMonster F} (h : FrameInRange s) :
    FrameInRange (step c s) := by
  cases c with
  | takeDamage => exact takeDamage_frameInRange h
  | handleInput k dt => exact handleInput_frameInRange k dt h
  | startAttack a => exact startAttack_frameInRange a s
  | setState a => exact setState_frameInRange a h
  | update dt => exact update_frameInRange dt h

theorem run_frameInRange (cs : List (Call F)) : ∀ {s : DudeMonster F}, FrameInRange s →
    FrameInRange (run cs s) := by
  induction cs with
  | nil => intro s h; exact h
  | cons c cs ih => intro s h; exact ih (step_frameInRange c h)

/-- C1. Starting from the entity as constructed (state IDLE, frame 0), after
every finite sequence of takeDamage, handleInput, startAttack, setState and
update calls, with any key samples and any time steps, the current frame index
is at least 0 and below the frame count of the current animation state. -/
theorem frame_index_invariant (posX posY w h moveSpeed : F) (cs : List (Call F)) :
    0 ≤ (run cs (DudeMonster.init posX posY w h moveSpeed)).currentFrame ∧
      (run cs (DudeMonster.init posX posY w h moveSpeed)).currentFrame <
        frameCount (run cs (DudeMonster.init posX posY w h moveSpeed)).currentState :=
  run_frameInRange cs (frameInRange_of_zero rfl)

/-! ## Frame advance -/

theorem advanceFrame_currentFrame (dt : F) (s : DudeMonster F) :
    (advanceFrame dt s).currentFrame =
      if s.frameTimer + dt ≥ s.frameDuration then
        if s.currentState = DEATH then
          if s.currentFrame < frameCount s.currentState - 1 then s.currentFrame + 1
          else s.currentFrame
        else (s.currentFrame + 1).tmod (frameCount s.currentState)
      else s.currentFrame := by
  simp only [advanceFrame]
  split_ifs <;> rfl

theorem advanceFrame_frameTimer (dt : F) (s : DudeMonster F) :
    (advanceFrame dt s).frameTimer =
      if s.frameTimer + dt ≥ s.frameDuration then 0 else s.frameTimer + dt := by
  simp only [advanceFrame]
  split_ifs <;> rfl

theorem update_currentFrame (dt : F) (s : DudeMonster F) :
    (update dt s).currentFrame =
      if s.frameTimer + dt ≥ s.frameDuration then
        if s.currentState = DEATH then
          if s.currentFrame < frameCount s.currentState - 1 then s.currentFrame + 1
          else s.currentFrame
        else (s.currentFrame + 1).tmod (frameCount s.currentState)
      else s.currentFrame := by
  simp [update, advanceFrame_currentFrame]

theorem update_frameTimer (dt : F) (s : DudeMonster F) :
    (update dt s).frameTimer =
      if s.frameTimer + dt ≥ s.frameDuration then 0 else s.frameTimer + dt := by
  simp [update, advanceFrame_frameTimer]

/-- One frame advance of the code maps the promised index for n advances to
the promised index for n + 1 advances. -/
theorem frameAfter_succ (S : AnimationState) (n : Nat) :
    (if S = DEATH then
        if frameAfter S n < frameCount S - 1 then frameAfter S n + 1 else frameAfter S n
      else (frameAfter S n + 1).tmod (frameCount S)) = frameAfter S (n + 1) := by
  by_cases hS : S = DEATH
  · subst hS
    simp only [frameAfter, if_true, frameCount]
    push_cast
    omega
  · simp only [frameAfter, hS, if_false]
    have hc := frameCount_pos S
    have h0 : 0 ≤ (n : Int) % frameCount S := Int.emod_nonneg _ (by omega)
    rw [Int.tmod_eq_emod (by omega) (by omega), Int.emod_add_emod]
    push_cast
    rfl

theorem updates_currentState (dts : List F) : ∀ s : DudeMonster F,
    (updates dts s).currentState = s.currentState := by
  induction dts with
  | nil => intro s; rfl
  | cons dt dts ih => intro s; simp [updates, ih]

theorem updates_frameDuration (dts : List F) : ∀ s : DudeMonster F,
    (updates dts s).frameDuration = s.frameDuration := by
  induction dts with
  | nil => intro s; rfl
  | cons dt dts ih => intro s; simp [updates, ih]

theorem updates_currentFrame (dts : List F) : ∀ (s : DudeMonster F) (m : Nat),
    s.currentFrame = frameAfter s.currentState m →
      (updates dts s).currentFrame =
        frameAfter s.currentState (m + frameTicks s.frameDuration s.frameTimer dts) := by
  induction dts with
  | nil => intro s m h; simpa [updates, frameTicks] using h
  | cons dt dts ih =>
    intro s m h
    simp only [updates, frameTicks]
    by_cases hT : s.frameTimer + dt ≥ s.frameDuration
    · have h1 : (update dt s).currentFrame = frameAfter (update dt s).currentState (m + 1) := by
        rw [update_currentFrame, update_currentState, if_pos hT, h]
        exact frameAfter_succ _ _
      have h2 := ih (update dt s) (m + 1) h1
      rw [update_currentState, update_frameDuration, update_frameTimer, if_pos hT] at h2
      rw [h2, if_pos hT]
      congr 1
      omega
    · have h1 : (update dt s).currentFrame = frameAfter (update dt s).currentState m := by
        rw [update_currentFrame, update_currentState, if_neg hT, h]
      have h2 := ih (update dt s) m h1
      rw [update_currentState, update_frameDuration, update_frameTimer, if_neg hT] at h2
      rw [h2, if_neg hT]

/-- C2. Frame advance law. For every animation state S and every sequence of
update calls made from a configuration in state S with frame 0, frame timer 0
and the frame duration of S, the state stays S and the frame index is
n mod frameCount S, where n is the number of updates in which the accumulated
frame timer reached the frame duration (the timer restarting from 0 after each
of them); for S = DEATH the index is min n (frameCount DEATH - 1). -/
theorem frame_advance_law (s : DudeMonster F) (dts : List F)
    (hFrame : s.currentFrame = 0) (hTimer : s.frameTimer = 0)
    (hDur : s.frameDuration = switchFrameDuration s.currentState) :
    (updates dts s).currentState = s.currentState ∧
      (updates dts s).currentFrame =
        if s.currentState = DEATH then
          min (frameTicks (switchFrameDuration s.currentState) 0 dts : Int)
            (frameCount DEATH - 1)
        else
          (frameTicks (switchFrameDuration s.currentState) 0 dts : Int) %
            frameCount s.currentState := by
  refine ⟨updates_currentState dts s, ?_⟩
  have h := updates_currentFrame dts s 0 (by rw [hFrame]; simp [frameAfter, frameCount])
  rw [h, hDur, hTimer, Nat.zero_add]
  rfl

/-- Witness of C2 on the player of main in exact arithmetic, three updates. -/
theorem frame_advance_law_witness :
    (updates [0.05, 0.05, 0.1] mainPlayerExact).currentState = mainPlayerExact.currentState ∧
      (updates [0.05, 0.05, 0.1] mainPlayerExact).currentFrame =
        if mainPlayerExact.currentState = DEATH then
          min
            (frameTicks (switchFrameDuration mainPlayerExact.currentState : ℚ) 0
              [0.05, 0.05, 0.1] : Int)
            (frameCount DEATH - 1)
        else
          (frameTicks (switchFrameDuration mainPlayerExact.currentState : ℚ) 0
            [0.05, 0.05, 0.1] : Int) % frameCount mainPlayerExact.currentState :=
  frame_advance_law mainPlayerExact [0.05, 0.05, 0.1] rfl rfl rfl

/-! ## Horizontal clamp

First in exact arithmetic, where the clamp keeps x inside the interval of the
claim; then for every arithmetic, where x is a value the clamp accepts. -/

theorem moveAndClamp_xInRange (d : ℚ) (s : DudeMonster ℚ) (hw : s.width ≤ 2) :
    XInRange (moveAndClamp d s) := by
  simp only [moveAndClamp, XInRange]
  split_ifs with h1 h2 h3
  · constructor <;> simp only <;> linarith
  · constructor <;> simp only at h2 ⊢ <;> linarith
  · constructor <;> simp only at h1 h3 ⊢ <;> linarith
  · constructor <;> simp only at h1 h3 ⊢ <;> linarith

theorem xInRange_congr {s t : DudeMonster ℚ} (hx : t.x = s.x) (hw : t.width = s.width)
    (h : XInRange s) : XInRange t := by
  unfold XInRange at *
  rw [hx, hw]
  exact h

theorem handleInput_xInRange (k : Keys) (dt : ℚ) {s : DudeMonster ℚ} (hw : s.width ≤ 2)
    (h : XInRange s) : XInRange (handleInput k dt s) := by
  unfold handleInput
  split
  · exact h
  · apply xInRange_congr (selectAnimation_x _ _ _) (selectAnimation_width _ _ _)
    apply moveAndClamp_xInRange
    simpa using hw

@[simp]
theorem step_width (c : Call F) (s : DudeMonster F) : (step c s).width = s.width := by
  cases c <;> simp [step]

@[simp]
theorem run_width (cs : List (Call F)) : ∀ s : DudeMonster F, (run cs s).width = s.width := by
  induction cs with
  | nil => intro s; rfl
  | cons c cs ih => intro s; simp [run, ih]

theorem step_xInRange (c : Call ℚ) {s : DudeMonster ℚ} (hw : s.width ≤ 2) (h : XInRange s) :
    XInRange (step c s) := by
  cases c with
  | takeDamage => exact xInRange_congr (takeDamage_x _) (takeDamage_width _) h
  | handleInput k dt => exact handleInput_xInRange k dt hw h
  | startAttack a => exact xInRange_congr (startAttack_x _ _) (startAttack_width _ _) h
  | setState a => exact xInRange_congr (setState_x _ _) (setState_width _ _) h
  | update dt => exact xInRange_congr (update_x _ _) (update_width _ _) h

theorem run_xInRange (cs : List (Call ℚ)) : ∀ {s : DudeMonster ℚ}, s.width ≤ 2 → XInRange s →
    XInRange (run cs s) := by
  induction cs with
  | nil => intro s _ h; exact h
  | cons c cs ih =>
    intro s hw h
    exact ih (by simpa using hw) (step_xInRange c hw h)

theorem moveAndClamp_clamped (d : F) (s : DudeMonster F) : Clamped (moveAndClamp d s) := by
  simp only [moveAndClamp, Clamped]
  split_ifs with h1 h2 h3
  · exact Or.inr (Or.inl rfl)
  · exact Or.inl rfl
  · exact Or.inr (Or.inl rfl)
  · exact Or.inr (Or.inr ⟨h1, h3⟩)

theorem clamped_congr {s t : DudeMonster F} (hx : t.x = s.x) (hw : t.width = s.width)
    (h : Clamped s) : Clamped t := by
  unfold Clamped at *
  rw [hx, hw]
  exact h

theorem handleInput_clamped (k : Keys) (dt : F) {s : DudeMonster F} (h : Clamped s) :
    Clamped (handleInput k dt s) := by
  unfold handleInput
  split
  · exact h
  · exact clamped_congr (selectAnimation_x _ _ _) (selectAnimation_width _ _ _)
      (moveAndClamp_clamped _ _)

theorem step_clamped (c : Call F) {s : DudeMonster F} (h : Clamped s) :
    Clamped (step c s) := by
  cases c with
  | takeDamage => exact clamped_congr (takeDamage_x _) (takeDamage_width _) h
  | handleInput k dt => exact handleInput_clamped k dt h
  | startAttack a => exact clamped_congr (startAttack_x _ _) (startAttack_width _ _) h
  | setState a => exact clamped_congr (setState_x _ _) (setState_width _ _) h
  | update dt => exact clamped_congr (update_x _ _) (update_width _ _) h

theorem run_clamped (cs : List (Call F)) : ∀ {s : DudeMonster F}, Clamped s →
    Clamped (run cs s) := by
  induction cs with
  | nil => intro s h; exact h
  | cons c cs ih => intro s h; exact ih (step_clamped c h)

theorem handleInput_of_hurt (k : Keys) (dt : F) (s : DudeMonster F) (h : s.isHurt = true) :
    handleInput k dt s = s := by
  simp [handleInput, h]

theorem updateHurtTimer_of_not_reached (dt : F) (s : DudeMonster F) (h : s.isHurt = true)
    (hn : ¬ (s.hurtTimer + dt ≥ 0.5)) :
    (updateHurtTimer dt s).isHurt = true ∧
      (updateHurtTimer dt s).hurtTimer = s.hurtTimer + dt := by
  simp only [updateHurtTimer]
  rw [if_pos h, if_neg hn]
  exact ⟨h, rfl⟩

theorem updateHurtTimer_of_reached (dt : F) (s : DudeMonster F) (h : s.isHurt = true)
    (hr : s.hurtTimer + dt ≥ 0.5) :
    (updateHurtTimer dt s).isHurt = false ∧ (updateHurtTimer dt s).hurtTimer = 0 := by
  simp only [updateHurtTimer]
  rw [if_pos h, if_pos hr]
  exact ⟨rfl, rfl⟩

theorem update_isHurt_eq (dt : F) (s : DudeMonster F) :
    (update dt s).isHurt = (updateHurtTimer dt (updateAttackTimer dt s)).isHurt := by
  simp [update]

theorem update_hurtTimer_eq (dt : F) (s : DudeMonster F) :
    (update dt s).hurtTimer = (updateHurtTimer dt (updateAttackTimer dt s)).hurtTimer := by
  simp [update]

theorem update_hurt_of_not_reached (dt : F) (s : DudeMonster F) (h : s.isHurt = true)
    (hn : ¬ (s.hurtTimer + dt ≥ 0.5)) :
    (update dt s).isHurt = true ∧ (update dt s).hurtTimer = s.hurtTimer + dt := by
  rw [update_isHurt_eq, update_hurtTimer_eq]
  have hh : (updateAttackTimer dt s).isHurt = true := by
    rw [updateAttackTimer_isHurt]; exact h
  have := updateHurtTimer_of_not_reached dt (updateAttackTimer dt s) hh
    (by rw [updateAttackTimer_hurtTimer]; exact hn)
  rw [updateAttackTimer_hurtTimer] at this
  exact this

theorem update_hurt_of_reached (dt : F) (s : DudeMonster F) (h : s.isHurt = true)
    (hr : s.hurtTimer + dt ≥ 0.5) :
    (update dt s).isHurt = false ∧ (update dt s).hurtTimer = 0 := by
  rw [update_isHurt_eq, update_hurtTimer_eq]
  have hh : (updateAttackTimer dt s).isHurt = true := by
    rw [updateAttackTimer_isHurt]; exact h
  exact updateHurtTimer_of_reached dt (updateAttackTimer dt s) hh
    (by rw [updateAttackTimer_hurtTimer]; exact hr)

/-- While hurt, calls among which no update brings the hurt timer to 0.5 keep
the hurt flag set, and the hurt timer is the one accumulated by the updates.
No law of arithmetic is used: the additions and the tests are those of the
code, in the order of the code. -/
theorem run_hurt_persists (cs : List (Call F)) : ∀ (s : DudeMonster F),
    s.isHurt = true → timerQuiet 0.5 s.hurtTimer cs →
      (run cs s).isHurt = true ∧ (run cs s).hurtTimer = timerAfter s.hurtTimer cs := by
  induction cs with
  | nil => intro s h _; exact ⟨h, rfl⟩
  | cons c cs ih =>
    intro s h hb
    cases c with
    | takeDamage =>
      simp only [run, step, timerAfter, timerQuiet] at hb ⊢
      rw [takeDamage_of_hurt s h]
      exact ih s h hb
    | handleInput k dt =>
      simp only [run, step, timerAfter, timerQuiet] at hb ⊢
      rw [handleInput_of_hurt k dt s h]
      exact ih s h hb
    | startAttack a =>
      simp only [run, step, timerAfter, timerQuiet] at hb ⊢
      have := ih (startAttack a s) (by rw [startAttack_isHurt]; exact h)
        (by rw [startAttack_hurtTimer]; exact hb)
      rw [startAttack_hurtTimer] at this
      exact this
    | setState a =>
      simp only [run, step, timerAfter, timerQuiet] at hb ⊢
      have := ih (setState a s) (by rw [setState_isHurt]; exact h)
        (by rw [setState_hurtTimer]; exact hb)
      rw [setState_hurtTimer] at this
      exact this
    | update dt =>
      simp only [run, step, timerAfter, timerQuiet] at hb ⊢
      obtain ⟨h1, h2⟩ := update_hurt_of_not_reached dt s h hb.1
      have := ih (update dt s) h1 (by rw [h2]; exact hb.2)
      rw [h2] at this
      exact this

theorem horizontalMovement_isMoving (k : Keys) (dt : F) (s : DudeMonster F) :
    (horizontalMovement k dt s).isMoving = (k.keyA || k.keyLeft || k.keyD || k.keyRight) := by
  simp only [horizontalMovement]
  cases k.keyA <;> cases k.keyLeft <;> cases k.keyD <;> cases k.keyRight <;> simp

theorem horizontalMovement_isRunning (k : Keys) (dt : F) (s : DudeMonster F) :
    (horizontalMovement k dt s).isRunning =
      ((k.keyA || k.keyLeft || k.keyD || k.keyRight) && k.leftShift) := by
  simp only [horizontalMovement]
  cases k.keyA <;> cases k.keyLeft <;> cases k.keyD <;> cases k.keyRight <;> simp

theorem selectAnimation_currentState_of_free (m r : Bool) (s : DudeMonster F)
    (hA : s.isAttacking = false) (hH : s.isHurt = false) :
    (selectAnimation m r s).currentState =
      if !s.onGround then JUMP else if m then (if r then RUN else WALK) else IDLE := by
  simp only [selectAnimation, hA, hH]
  cases s.onGround <;> cases m <;> cases r <;> simp

/-- When the entity is not hurt and the call ends with the attack flag clear,
handleInput selects the movement-derived animation state. -/
theorem handleInput_currentState_of_free (k : Keys) (dt : F) (s : DudeMonster F)
    (hH : s.isHurt = false) (hA : (handleInput k dt s).isAttacking = false) :
    (handleInput k dt s).currentState =
      movementDerivedState k (handleInput k dt s).onGround := by
  simp only [handleInput, hH] at hA ⊢
  simp only [Bool.false_eq_true, if_false] at hA ⊢
  rw [selectAnimation_isAttacking] at hA
  rw [selectAnimation_currentState_of_free _ _ _ hA (by simp [hH])]
  rw [selectAnimation_onGround, horizontalMovement_isMoving, horizontalMovement_isRunning]
  unfold movementDerivedState
  cases (moveAndClamp (horizontalMovement k dt s).deltaX
    (attackInput k (jumpInput k { s with facingRight := (horizontalMovement k dt s).facingRight }))).onGround <;>
  cases k.keyA <;> cases k.keyLeft <;> cases k.keyD <;> cases k.keyRight <;>
  cases k.leftShift <;> simp

/-- C4 (amended). Hurt expiry. For every entity state that is not hurt,
takeDamage puts the entity into HURT with the hurt timer at 0. The time since
then is the hurt timer of the code, to which each following update adds its
time step (hurtTimer += deltaTime). As long as no update brings that timer to
0.5 the hurt flag stays set, whatever other calls are interleaved, and the
stored hurt timer is that accumulated timer; the first update that brings it
to 0.5 or more clears the hurt flag; and the very next handleInput then sets
the animation state to the movement-derived one (JUMP if not on the ground at
the end of that call, otherwise RUN, WALK or IDLE by the left, right and
shift keys), provided the attack flag is clear at the end of that call. The
timer is accumulated and tested exactly as update does it, and the proof uses
no law of arithmetic. -/
theorem hurt_expiry (s : DudeMonster F) (cs : List (Call F)) (dt : F) (k : Keys) (dt' : F)
    (hNot : s.isHurt = false) (hQuiet : timerQuiet 0.5 0 cs)
    (hReach : timerAfter 0 cs + dt ≥ 0.5) :
    (takeDamage s).currentState = HURT ∧
      (takeDamage s).hurtTimer = 0 ∧
      (run cs (takeDamage s)).isHurt = true ∧
      (run cs (takeDamage s)).hurtTimer = timerAfter 0 cs ∧
      (update dt (run cs (takeDamage s))).isHurt = false ∧
      ((handleInput k dt' (update dt (run cs (takeDamage s)))).isAttacking = false →
        (handleInput k dt' (update dt (run cs (takeDamage s)))).currentState =
          movementDerivedState k
            (handleInput k dt' (update dt (run cs (takeDamage s)))).onGround) := by
  have h0 : (takeDamage s).hurtTimer = 0 := takeDamage_hurtTimer s hNot
  obtain ⟨h1, h2⟩ := run_hurt_persists cs (takeDamage s) (takeDamage_isHurt s)
    (by rw [h0]; exact hQuiet)
  rw [h0] at h2
  have h3 := (update_hurt_of_reached dt (run cs (takeDamage s)) h1
    (by rw [h2]; exact hReach)).1
  exact ⟨takeDamage_currentState s hNot, h0, h1, h2, h3,
    fun hA => handleInput_currentState_of_free k dt' _ h3 hA⟩

/-- Witness of C4 (amended) on the player of main in single precision: damage,
then forty updates of 0.0125, after which the accumulated hurt timer is still
below 0.5 and the entity still hurt, then a forty-first update, which clears
the hurt flag, then an input with the right key and shift held. -/
theorem hurt_expiry_witness :
    (takeDamage mainPlayer32).currentState = HURT ∧
      (takeDamage mainPlayer32).hurtTimer = 0 ∧
      (run (List.replicate 40 (.update 0.0125)) (takeDamage mainPlayer32)).isHurt = true ∧
      (run (List.replicate 40 (.update 0.0125)) (takeDamage mainPlayer32)).hurtTimer =
        timerAfter 0 (List.replicate 40 (.update 0.0125)) ∧
      (update 0.0125
        (run (List.replicate 40 (.update 0.0125)) (takeDamage mainPlayer32))).isHurt = false ∧
      ((handleInput keysRunRight 0.0125 (update 0.0125
          (run (List.replicate 40 (.update 0.0125)) (takeDamage mainPlayer32)))).isAttacking =
          false →
        (handleInput keysRunRight 0.0125 (update 0.0125
          (run (List.replicate 40 (.update 0.0125)) (takeDamage mainPlayer32)))).currentState =
          movementDerivedState keysRunRight
            (handleInput keysRunRight 0.0125 (update 0.0125
              (run (List.replicate 40 (.update 0.0125))
                (takeDamage mainPlayer32)))).onGround) :=
  hurt_expiry mainPlayer32 (List.replicate 40 (.update 0.0125)) 0.0125 keysRunRight 0.0125
    rfl (by decide!) (by decide!)

/-- Counterexample to C4 as stated, on the player of main in single precision.
First case: the hurt flag is cleared by an update of 0.5, and the very next handleInput, with
a fresh press of the attack key Z, sets the state ATTACK1 although the
movement-derived state is IDLE. Second case: an attack starts, damage arrives,
an update of 0.5 clears the hurt flag but not the attack flag, and the very
next handleInput leaves the state HURT although the movement-derived state is
IDLE. -/
theorem hurt_expiry_counterexample :
    ((update 0.5 (takeDamage mainPlayer32)).isHurt = false ∧
      (handleInput keysAttack1 0 (update 0.5 (takeDamage mainPlayer32))).currentState = ATTACK1 ∧
      movementDerivedState keysAttack1
        (handleInput keysAttack1 0 (update 0.5 (takeDamage mainPlayer32))).onGround = IDLE) ∧
    ((run [.handleInput keysAttack1 0, .takeDamage, .update 0.5] mainPlayer32).isHurt = false ∧
      (run [.handleInput keysAttack1 0, .takeDamage, .update 0.5] mainPlayer32).isAttacking = true ∧
      (handleInput Keys.none 0
        (run [.handleInput keysAttack1 0, .takeDamage, .update 0.5] mainPlayer32)).currentState =
          HURT ∧
      movementDerivedState Keys.none
        (handleInput Keys.none 0
          (run [.handleInput keysAttack1 0, .takeDamage, .update 0.5] mainPlayer32)).onGround =
          IDLE) := by
  decide!

/-! ## Jump gating -/

theorem jumpInput_velocityY (k : Keys) (s : DudeMonster F) :
    (jumpInput k s).velocityY =
      if ((k.keyW || k.keyUp || k.keySpace) && s.onGround) = true then jumpStrength
      else s.velocityY := by
  unfold jumpInput
  split <;> rfl

theorem jumpInput_onGround (k : Keys) (s : DudeMonster F) :
    (jumpInput k s).onGround =
      if ((k.keyW || k.keyUp || k.keySpace) && s.onGround) = true then false
      else s.onGround := by
  unfold jumpInput
  split <;> rfl

theorem handleInput_velocityY (k : Keys) (dt : F) (s : DudeMonster F) :
    (handleInput k dt s).velocityY =
      if s.isHurt = true then s.velocityY
      else if ((k.keyW || k.keyUp || k.keySpace) && s.onGround) = true then jumpStrength
      else s.velocityY := by
  unfold handleInput
  split
  · rfl
  · simp [jumpInput_velocityY]

theorem handleInput_onGround (k : Keys) (dt : F) (s : DudeMonster F) :
    (handleInput k dt s).onGround =
      if s.isHurt = true then s.onGround
      else if ((k.keyW || k.keyUp || k.keySpace) && s.onGround) = true then false
      else s.onGround := by
  unfold handleInput
  split
  · rfl
  · simp [jumpInput_onGround]

theorem handleInput_airborne (k : Keys) (dt : F) (s : DudeMonster F) (h : s.onGround = false) :
    (handleInput k dt s).velocityY = s.velocityY ∧ (handleInput k dt s).y = s.y ∧
      (handleInput k dt s).onGround = false := by
  rw [handleInput_velocityY, handleInput_onGround, handleInput_y]
  simp [h]

theorem handleInputs_airborne (ps : List (Keys × F)) : ∀ s : DudeMonster F, s.onGround = false →
    (handleInputs ps s).velocityY = s.velocityY ∧ (handleInputs ps s).y = s.y ∧
      (handleInputs ps s).onGround = false := by
  induction ps with
  | nil => intro s h; exact ⟨rfl, rfl, h⟩
  | cons p ps ih =>
    intro s h
    obtain ⟨h1, h2, h3⟩ := handleInput_airborne p.1 p.2 s h
    obtain ⟨g1, g2, g3⟩ := ih (handleInput p.1 p.2 s) h3
    simp only [handleInputs]
    exact ⟨g1.trans h1, g2.trans h2, g3⟩

/-- C5. Jump gating. The jump strength is 8. For every entity state and key
sample, handleInput never changes y; it sets the vertical velocity to the jump
strength and clears the ground-contact flag exactly when the flag was true
before the call, a jump key (W, Up or Space) is pressed and the entity is not
hurt, and otherwise leaves the velocity and the flag as they were. In
particular when the flag is false, one handleInput call, and any sequence of
handleInput calls, leaves the velocity, y and the flag unchanged whatever keys
are pressed. -/
theorem jump_gating (s : DudeMonster F) (k : Keys) (dt : F) (ps : List (Keys × F)) :
    (jumpStrength : F) = 8 ∧
      (handleInput k dt s).y = s.y ∧
      (if s.onGround = true ∧ (k.keyW || k.keyUp || k.keySpace) = true ∧ s.isHurt = false then
        (handleInput k dt s).velocityY = jumpStrength ∧ (handleInput k dt s).onGround = false
      else
        (handleInput k dt s).velocityY = s.velocityY ∧
          (handleInput k dt s).onGround = s.onGround) ∧
      (s.onGround = false →
        ((handleInput k dt s).velocityY = s.velocityY ∧ (handleInput k dt s).y = s.y ∧
          (handleInput k dt s).onGround = false) ∧
        ((handleInputs ps s).velocityY = s.velocityY ∧ (handleInputs ps s).y = s.y ∧
          (handleInputs ps s).onGround = false)) := by
  refine ⟨rfl, handleInput_y k dt s, ?_, fun h =>
    ⟨handleInput_airborne k dt s h, handleInputs_airborne ps s h⟩⟩
  rw [handleInput_velocityY, handleInput_onGround]
  cases s.onGround <;> cases s.isHurt <;> cases k.keyW <;> cases k.keyUp <;>
    cases k.keySpace <;> simp

/-- Witness of C5: the player of main after a jump is airborne, and further
jump presses leave its vertical motion untouched. -/
theorem jump_gating_witness :
    ((handleInput keysJump 0.1 (handleInput keysJump 0 mainPlayerExact)).velocityY =
        (handleInput keysJump 0 mainPlayerExact).velocityY ∧
      (handleInput keysJump 0.1 (handleInput keysJump 0 mainPlayerExact)).y =
        (handleInput keysJump 0 mainPlayerExact).y ∧
      (handleInput keysJump 0.1 (handleInput keysJump 0 mainPlayerExact)).onGround = false) ∧
    ((handleInputs [(keysJump, 0.1), (keysJump, 0.1)]
        (handleInput keysJump 0 mainPlayerExact)).velocityY =
        (handleInput keysJump 0 mainPlayerExact).velocityY ∧
      (handleInputs [(keysJump, 0.1), (keysJump, 0.1)]
        (handleInput keysJump 0 mainPlayerExact)).y = (handleInput keysJump 0 mainPlayerExact).y ∧
      (handleInputs [(keysJump, 0.1), (keysJump, 0.1)]
        (handleInput keysJump 0 mainPlayerExact)).onGround = false) :=
  (jump_gating (handleInput keysJump 0 mainPlayerExact) keysJump 0.1
    [(keysJump, 0.1), (keysJump, 0.1)]).2.2.2 (by decide!)

/-! ## Attack suppression -/

theorem attackInput_of_attacking (k : Keys) (s : DudeMonster F) (h : s.isAttacking = true) :
    attackInput k s = { s with lastAttack1 := k.keyZ, lastAttack2 := k.keyX } := by
  simp [attackInput, h]

theorem attackInput_of_fresh1 (k : Keys) (s : DudeMonster F) (hA : s.isAttacking = false)
    (hZ : k.keyZ = true) (hL : s.lastAttack1 = false) :
    attackInput k s =
      { startAttack ATTACK1 s with lastAttack1 := k.keyZ, lastAttack2 := k.keyX } := by
  simp [attackInput, hA, hZ, hL]

theorem selectAnimation_of_attacking (m r : Bool) (s : DudeMonster F)
    (h : s.isAttacking = true) : selectAnimation m r s = s := by
  simp [selectAnimation, h]

/-- While the attack flag is set, handleInput leaves the animation fields,
the attack timer and the attack flag as they were. -/
theorem handleInput_of_attacking (k : Keys) (dt : F) (s : DudeMonster F)
    (h : s.isAttacking = true) :
    (handleInput k dt s).currentState = s.currentState ∧
      (handleInput k dt s).currentFrame = s.currentFrame ∧
      (handleInput k dt s).frameTimer = s.frameTimer ∧
      (handleInput k dt s).frameDuration = s.frameDuration ∧
      (handleInput k dt s).attackTimer = s.attackTimer ∧
      (handleInput k dt s).isAttacking = true := by
  unfold handleInput
  split
  · exact ⟨rfl, rfl, rfl, rfl, rfl, h⟩
  · simp only
    rw [attackInput_of_attacking k _ (by simpa using h),
      selectAnimation_of_attacking _ _ _ (by simpa using h)]
    simpa using h

/-- A fresh press of Z on an entity that is neither hurt nor attacking starts
ATTACK1, whatever the other keys are. -/
theorem handleInput_of_fresh1 (k : Keys) (dt : F) (s : DudeMonster F)
    (hA : s.isAttacking = false) (hH : s.isHurt = false) (hZ : k.keyZ = true)
    (hL : s.lastAttack1 = false) :
    (handleInput k dt s).currentState = ATTACK1 ∧
      (handleInput k dt s).currentFrame = 0 ∧
      (handleInput k dt s).attackTimer = 0 ∧
      (handleInput k dt s).isAttacking = true := by
  unfold handleInput
  rw [if_neg (by simp [hH])]
  simp only
  rw [attackInput_of_fresh1 k _ (by simpa using hA) hZ (by simpa using hL),
    selectAnimation_of_attacking _ _ _ (by simp)]
  simp

/-- C6 (amended). Attack suppression. For every entity state with the attack
flag set and every key sample, handleInput leaves the animation state, frame
index, frame timer, attack timer and attack flag unchanged. When both attack
keys are freshly pressed in the same call while the entity is not attacking
and not hurt, only ATTACK1 starts: the call ends in state ATTACK1 with the
attack flag set, frame index 0 and attack timer 0. -/
theorem attack_suppression (s : DudeMonster F) (k : Keys) (dt : F) :
    (s.isAttacking = true →
      (handleInput k dt s).currentState = s.currentState ∧
        (handleInput k dt s).currentFrame = s.currentFrame ∧
        (handleInput k dt s).frameTimer = s.frameTimer ∧
        (handleInput k dt s).attackTimer = s.attackTimer ∧
        (handleInput k dt s).isAttacking = true) ∧
    (s.isAttacking = false → s.isHurt = false →
      k.keyZ = true → s.lastAttack1 = false → k.keyX = true → s.lastAttack2 = false →
      (handleInput k dt s).currentState = ATTACK1 ∧
        (handleInput k dt s).currentFrame = 0 ∧
        (handleInput k dt s).attackTimer = 0 ∧
        (handleInput k dt s).isAttacking = true) := by
  constructor
  · intro h
    obtain ⟨h1, h2, h3, _, h5, h6⟩ := handleInput_of_attacking k dt s h
    exact ⟨h1, h2, h3, h5, h6⟩
  · intro hA hH hZ hL _ _
    exact handleInput_of_fresh1 k dt s hA hH hZ hL

/-- Witness of C6 (amended): both attack keys pressed during a running
ATTACK2, and both attack keys freshly pressed on the player of main. -/
theorem attack_suppression_witness :
    ((handleInput keysBothAttacks 0.1 (startAttack ATTACK2 mainPlayerExact)).currentState =
        (startAttack ATTACK2 mainPlayerExact).currentState ∧
      (handleInput keysBothAttacks 0.1 (startAttack ATTACK2 mainPlayerExact)).currentFrame =
        (startAttack ATTACK2 mainPlayerExact).currentFrame ∧
      (handleInput keysBothAttacks 0.1 (startAttack ATTACK2 mainPlayerExact)).frameTimer =
        (startAttack ATTACK2 mainPlayerExact).frameTimer ∧
      (handleInput keysBothAttacks 0.1 (startAttack ATTACK2 mainPlayerExact)).attackTimer =
        (startAttack ATTACK2 mainPlayerExact).attackTimer ∧
      (handleInput keysBothAttacks 0.1 (startAttack ATTACK2 mainPlayerExact)).isAttacking = true) ∧
    ((handleInput keysBothAttacks 0.1 mainPlayerExact).currentState = ATTACK1 ∧
      (handleInput keysBothAttacks 0.1 mainPlayerExact).currentFrame = 0 ∧
      (handleInput keysBothAttacks 0.1 mainPlayerExact).attackTimer = 0 ∧
      (handleInput keysBothAttacks 0.1 mainPlayerExact).isAttacking = true) :=
  ⟨(attack_suppression (startAttack ATTACK2 mainPlayerExact) keysBothAttacks 0.1).1 (by simp),
    (attack_suppression mainPlayerExact keysBothAttacks 0.1).2 rfl rfl rfl rfl rfl rfl⟩

/-- Counterexample to C6 as stated: the player of main, just damaged, is not
attacking; both attack keys are freshly pressed in the same call; no attack
starts and the state stays HURT. -/
theorem attack_suppression_counterexample :
    (takeDamage mainPlayerExact).isAttacking = false ∧
      keysBothAttacks.keyZ = true ∧ (takeDamage mainPlayerExact).lastAttack1 = false ∧
      keysBothAttacks.keyX = true ∧ (takeDamage mainPlayerExact).lastAttack2 = false ∧
      (handleInput keysBothAttacks 0.1 (takeDamage mainPlayerExact)).currentState = HURT ∧
      (handleInput keysBothAttacks 0.1 (takeDamage mainPlayerExact)).currentState ≠ ATTACK1 ∧
      (handleInput keysBothAttacks 0.1 (takeDamage mainPlayerExact)).isAttacking = false := by
  decide!

/-! ## Damage while hurt -/

/-- C7. Damage is an idempotent no-op while hurt: for every entity state s
with the hurt flag set, takeDamage s = s, so no field is reset; and for every
entity state s, takeDamage (takeDamage s) = takeDamage s. -/
theorem takeDamage_idempotent (s : DudeMonster F) :
    (s.isHurt = true → takeDamage s = s) ∧ takeDamage (takeDamage s) = takeDamage s :=
  ⟨takeDamage_of_hurt s, takeDamage_of_hurt (takeDamage s) (takeDamage_isHurt s)⟩

/-- Witness of C7 on the player of main after a first damage event and an
update of 0.2, which has advanced the hurt timer and the frame index. -/
theorem takeDamage_idempotent_witness :
    takeDamage (update 0.2 (takeDamage mainPlayerExact)) =
      update 0.2 (takeDamage mainPlayerExact) :=
  (takeDamage_idempotent (update 0.2 (takeDamage mainPlayerExact))).1 (by decide!)

/-! ## Stored frame duration -/

theorem setState_durationConsistent (a : AnimationState) {s : DudeMonster F}
    (h : DurationConsistent s) : DurationConsistent (setState a s) := by
  unfold DurationConsistent at *
  rw [setState_frameDuration, setState_currentState]
  by_cases hs : s.currentState = a
  · rw [if_pos hs, h, hs]
  · rw [if_neg hs]

theorem durationConsistent_congr {s t : DudeMonster F} (hd : t.frameDuration = s.frameDuration)
    (hs : t.currentState = s.currentState) (h : DurationConsistent s) :
    DurationConsistent t := by
  unfold DurationConsistent at *
  rw [hd, hs]
  exact h

theorem startAttack_durationConsistent (a : AnimationState) {s : DudeMonster F}
    (h : DurationConsistent s) : DurationConsistent (startAttack a s) := by
  unfold startAttack
  exact setState_durationConsistent a (durationConsistent_congr rfl rfl h)

theorem takeDamage_durationConsistent {s : DudeMonster F} (h : DurationConsistent s) :
    DurationConsistent (takeDamage s) := by
  cases hh : s.isHurt
  · rw [takeDamage_of_not_hurt s hh]
    exact setState_durationConsistent HURT (durationConsistent_congr rfl rfl h)
  · rw [takeDamage_of_hurt s hh]
    exact h

theorem attackInput_durationConsistent (k : Keys) {s : DudeMonster F}
    (h : DurationConsistent s) : DurationConsistent (attackInput k s) := by
  simp only [attackInput]
  split_ifs
  · exact durationConsistent_congr rfl rfl
      (startAttack_durationConsistent _ (startAttack_durationConsistent _ h))
  · exact durationConsistent_congr rfl rfl (startAttack_durationConsistent _ h)
  · exact durationConsistent_congr rfl rfl (startAttack_durationConsistent _ h)
  · exact durationConsistent_congr rfl rfl h

theorem selectAnimation_durationConsistent (m r : Bool) {s : DudeMonster F}
    (h : DurationConsistent s) : DurationConsistent (selectAnimation m r s) := by
  unfold selectAnimation
  split_ifs <;> first | exact setState_durationConsistent _ h | exact h

theorem handleInput_durationConsistent (k : Keys) (dt : F) {s : DudeMonster F}
    (h : DurationConsistent s) : DurationConsistent (handleInput k dt s) := by
  unfold handleInput
  split
  · exact h
  · apply selectAnimation_durationConsistent
    apply durationConsistent_congr (moveAndClamp_frameDuration _ _)
      (moveAndClamp_currentState _ _)
    apply attackInput_durationConsistent
    apply durationConsistent_congr (jumpInput_frameDuration _ _) (jumpInput_currentState _ _)
    exact durationConsistent_congr rfl rfl h

theorem step_durationConsistent (c : Call F) {s : DudeMonster F} (h : DurationConsistent s) :
    DurationConsistent (step c s) := by
  cases c with
  | takeDamage => exact takeDamage_durationConsistent h
  | handleInput k dt => exact handleInput_durationConsistent k dt h
  | startAttack a => exact startAttack_durationConsistent a h
  | setState a => exact setState_durationConsistent a h
  | update dt =>
    exact durationConsistent_congr (update_frameDuration _ _) (update_currentState _ _) h

theorem run_durationConsistent (cs : List (Call F)) : ∀ {s : DudeMonster F},
    DurationConsistent s → DurationConsistent (run cs s) := by
  induction cs with
  | nil => intro s h; exact h
  | cons c cs ih => intro s h; exact ih (step_durationConsistent c h)

theorem init_durationConsistent (posX posY w h moveSpeed : F) :
    DurationConsistent (DudeMonster.init posX posY w h moveSpeed) := rfl

/-! ## Attack self-termination -/

theorem updateAttackTimer_of_not_reached (dt : F) (s : DudeMonster F)
    (h : s.isAttacking = true)
    (hn : ¬ (s.attackTimer + dt ≥ (frameCount s.currentState : F) * s.frameDuration)) :
    (updateAttackTimer dt s).isAttacking = true ∧
      (updateAttackTimer dt s).attackTimer = s.attackTimer + dt := by
  simp only [updateAttackTimer]
  rw [if_pos h, if_neg hn]
  exact ⟨h, rfl⟩

theorem updateAttackTimer_of_reached (dt : F) (s : DudeMonster F) (h : s.isAttacking = true)
    (hr : s.attackTimer + dt ≥ (frameCount s.currentState : F) * s.frameDuration) :
    (updateAttackTimer dt s).isAttacking = false ∧ (updateAttackTimer dt s).attackTimer = 0 := by
  simp only [updateAttackTimer]
  rw [if_pos h, if_pos hr]
  exact ⟨rfl, rfl⟩

theorem update_isAttacking_eq (dt : F) (s : DudeMonster F) :
    (update dt s).isAttacking = (updateAttackTimer dt s).isAttacking := by
  simp [update]

theorem update_attackTimer_eq (dt : F) (s : DudeMonster F) :
    (update dt s).attackTimer = (updateAttackTimer dt s).attackTimer := by
  simp [update]

/-- While an attack runs in state A with frame duration d, calls of the frame
loop in which no damage lands and no update brings the attack timer to the
attack duration keep the attack flag set, keep the state and the frame
duration, and the attack timer is the one accumulated by the updates. No law
of arithmetic is used: the additions and the tests are those of the code, in
the order of the code. -/
theorem run_attack_persists (A : AnimationState) (d : F) (cs : List (Call F)) :
    ∀ (s : DudeMonster F), s.isAttacking = true → s.currentState = A → s.frameDuration = d →
      (∀ c ∈ cs, Call.isTick c = true) → damageLands cs s = false →
      timerQuiet ((frameCount A : F) * d) s.attackTimer cs →
      (run cs s).isAttacking = true ∧ (run cs s).currentState = A ∧
        (run cs s).frameDuration = d ∧
        (run cs s).attackTimer = timerAfter s.attackTimer cs := by
  induction cs with
  | nil => intro s h hS hD _ _ _; exact ⟨h, hS, hD, rfl⟩
  | cons c cs ih =>
    intro s h hS hD hT hN hB
    have hT' : ∀ c ∈ cs, Call.isTick c = true := fun c hc => hT c (List.mem_cons_of_mem _ hc)
    cases c with
    | takeDamage =>
      simp only [run, step, timerAfter, timerQuiet, damageLands, Bool.or_eq_false_iff,
        Bool.not_eq_false'] at hB hN ⊢
      rw [takeDamage_of_hurt s hN.1] at hN ⊢
      exact ih s h hS hD hT' hN.2 hB
    | handleInput k dt =>
      simp only [run, step, timerAfter, timerQuiet, damageLands] at hB hN ⊢
      obtain ⟨h1, _, _, h4, h5, h6⟩ := handleInput_of_attacking k dt s h
      have := ih (handleInput k dt s) h6 (h1.trans hS) (h4.trans hD) hT' hN
        (by rw [h5]; exact hB)
      rw [h5] at this
      exact this
    | startAttack a =>
      have := hT (.startAttack a) (List.mem_cons_self _ _)
      simp [Call.isTick] at this
    | setState a =>
      have := hT (.setState a) (List.mem_cons_self _ _)
      simp [Call.isTick] at this
    | update dt =>
      simp only [run, step, timerAfter, timerQuiet, damageLands] at hB hN ⊢
      have hn : ¬ (s.attackTimer + dt ≥ (frameCount s.currentState : F) * s.frameDuration) := by
        rw [hS, hD]; exact hB.1
      obtain ⟨h1, h2⟩ := updateAttackTimer_of_not_reached dt s h hn
      rw [← update_isAttacking_eq] at h1
      rw [← update_attackTimer_eq] at h2
      have := ih (update dt s) h1 ((update_currentState dt s).trans hS)
        ((update_frameDuration dt s).trans hD) hT' hN (by rw [h2]; exact hB.2)
      rw [h2] at this
      exact this

/-- C8 (amended). Attack self-termination. For every state reached from a
constructed entity, every attack type A in ATTACK1, ATTACK2 and every
interleaving of handleInput, takeDamage and update calls after startAttack A
in which no takeDamage call arrives while the hurt flag is clear. The attack
duration is frameCount A * frameDuration A, with frame counts 4 and 6 and
frame duration 0.08; the product is 0.32 for ATTACK1 and 0.48 for ATTACK2,
in exact arithmetic and in single precision alike. The time since the attack
started is the attack timer of the code, 0 at startAttack, to which each
update adds its time step (attackTimer += deltaTime). As long as no update
brings that timer to the attack duration the attack flag is still set and the
stored attack timer is that accumulated timer; the first update that brings
it to the attack duration or beyond clears the attack flag. The timing part
holds in every arithmetic and uses no law of arithmetic. -/
theorem attack_self_termination (posX posY w h moveSpeed : F) (before : List (Call F))
    (A : AnimationState) (cs : List (Call F)) (dt : F)
    (hA : A = ATTACK1 ∨ A = ATTACK2)
    (hTick : ∀ c ∈ cs, Call.isTick c = true)
    (hNoDamage : damageLands cs
      (startAttack A (run before (DudeMonster.init posX posY w h moveSpeed))) = false)
    (hQuiet : timerQuiet ((frameCount A : F) * switchFrameDuration A) 0 cs)
    (hReach : timerAfter 0 cs + dt ≥ (frameCount A : F) * switchFrameDuration A) :
    (frameCount ATTACK1 = 4 ∧ frameCount ATTACK2 = 6 ∧ (switchFrameDuration A : F) = 0.08) ∧
      ((frameCount A : ℚ) * switchFrameDuration A = if A = ATTACK1 then 0.32 else 0.48) ∧
      ((frameCount A : F32) * switchFrameDuration A = if A = ATTACK1 then 0.32 else 0.48) ∧
      (run cs (startAttack A
        (run before (DudeMonster.init posX posY w h moveSpeed)))).isAttacking = true ∧
      (run cs (startAttack A
        (run before (DudeMonster.init posX posY w h moveSpeed)))).attackTimer =
        timerAfter 0 cs ∧
      (update dt (run cs (startAttack A
        (run before (DudeMonster.init posX posY w h moveSpeed))))).isAttacking = false := by
  have hc := startAttack_durationConsistent A
    (run_durationConsistent before (init_durationConsistent posX posY w h moveSpeed))
  unfold DurationConsistent at hc
  rw [startAttack_currentState] at hc
  obtain ⟨h1, h2, h3, h4⟩ := run_attack_persists A (switchFrameDuration A) cs _
    (startAttack_isAttacking A _) (startAttack_currentState A _) hc hTick hNoDamage
    (by rw [startAttack_attackTimer]; exact hQuiet)
  rw [startAttack_attackTimer] at h4
  refine ⟨⟨rfl, rfl, ?_⟩, ?_, ?_, h1, h4, ?_⟩
  · rcases hA with rfl | rfl <;> rfl
  · rcases hA with rfl | rfl <;> decide!
  · rcases hA with rfl | rfl <;> decide!
  · rw [update_isAttacking_eq]
    exact (updateAttackTimer_of_reached dt _ h1 (by rw [h2, h3, h4]; exact hReach)).1

/-- Witness of C8 (amended) on the player of main in single precision: after
one idle frame ATTACK2 starts, then twenty updates of 0.024, after which the
accumulated attack timer is still below 6 * 0.08 and the attack still running,
then a twenty-first update, which clears the attack flag. -/
theorem attack_self_termination_witness :
    (frameCount ATTACK1 = 4 ∧ frameCount ATTACK2 = 6 ∧
        (switchFrameDuration ATTACK2 : F32) = 0.08) ∧
      ((frameCount ATTACK2 : ℚ) * switchFrameDuration ATTACK2 =
        if ATTACK2 = ATTACK1 then 0.32 else 0.48) ∧
      ((frameCount ATTACK2 : F32) * switchFrameDuration ATTACK2 =
        if ATTACK2 = ATTACK1 then 0.32 else 0.48) ∧
      (run (List.replicate 20 (.update 0.024))
        (startAttack ATTACK2
          (run [.handleInput Keys.none 0.125, .update 0.125]
            (DudeMonster.init 0 (-0.5) 0.4 0.5 (4 : F32))))).isAttacking = true ∧
      (run (List.replicate 20 (.update 0.024))
        (startAttack ATTACK2
          (run [.handleInput Keys.none 0.125, .update 0.125]
            (DudeMonster.init 0 (-0.5) 0.4 0.5 (4 : F32))))).attackTimer =
        timerAfter 0 (List.replicate 20 (.update 0.024)) ∧
      (update 0.024 (run (List.replicate 20 (.update 0.024))
        (startAttack ATTACK2
          (run [.handleInput Keys.none 0.125, .update 0.125]
            (DudeMonster.init 0 (-0.5) 0.4 0.5 (4 : F32)))))).isAttacking = false :=
  attack_self_termination 0 (-0.5) 0.4 0.5 (4 : F32)
    [.handleInput Keys.none 0.125, .update 0.125]
    ATTACK2 (List.replicate 20 (.update 0.024)) 0.024
    (Or.inr rfl) (by decide!) (by decide!) (by decide!) (by decide!)

/-- Counterexample to C8 as stated, on the player of main in single precision:
ATTACK1 starts, damage arrives, and an update of 0.375 follows. No earlier
update has brought the attack timer to 4 * 0.08 = 0.32 and this one brings it
to 0.375, yet the attack flag is still set: the update compares the attack
timer with the frame count and frame duration of the current state HURT,
4 * 0.15 = 0.6. -/
theorem attack_self_termination_counterexample :
    timerAfter (0 : F32) [.takeDamage, .update 0.375] ≥
        (frameCount ATTACK1 : F32) * switchFrameDuration ATTACK1 ∧
      (run [.takeDamage, .update 0.375] (startAttack ATTACK1 mainPlayer32)).isAttacking =
        true ∧
      (run [.takeDamage, .update 0.375] (startAttack ATTACK1 mainPlayer32)).attackTimer =
        0.375 ∧
      (run [.takeDamage, .update 0.375] (startAttack ATTACK1 mainPlayer32)).currentState =
        HURT := by
  decide!

/-! ## Vertical motion -/

theorem applyGravity_y (dt : F) (s : DudeMonster F) :
    (applyGravity dt s).y =
      if s.onGround = true then s.y
      else if s.y + (s.velocityY + gravity * dt) * dt ≤ -0.5 then -0.5
      else s.y + (s.velocityY + gravity * dt) * dt := by
  simp only [applyGravity]
  cases h : s.onGround
  · simp only [Bool.not_false, if_true, Bool.false_eq_true, if_false]
    split_ifs <;> rfl
  · simp

theorem applyGravity_velocityY (dt : F) (s : DudeMonster F) :
    (applyGravity dt s).velocityY =
      if s.onGround = true then s.velocityY
      else if s.y + (s.velocityY + gravity * dt) * dt ≤ -0.5 then 0
      else s.velocityY + gravity * dt := by
  simp only [applyGravity]
  cases h : s.onGround
  · simp only [Bool.not_false, if_true, Bool.false_eq_true, if_false]
    split_ifs <;> rfl
  · simp

theorem applyGravity_onGround (dt : F) (s : DudeMonster F) :
    (applyGravity dt s).onGround =
      if s.onGround = true then true
      else if s.y + (s.velocityY + gravity * dt) * dt ≤ -0.5 then true
      else false := by
  simp only [applyGravity]
  cases h : s.onGround
  · simp only [Bool.not_false, if_true, Bool.false_eq_true, if_false]
    split_ifs <;> rfl
  · simp [h]

theorem update_y (dt : F) (s : DudeMonster F) :
    (update dt s).y =
      if s.onGround = true then s.y
      else if s.y + (s.velocityY + gravity * dt) * dt ≤ -0.5 then -0.5
      else s.y + (s.velocityY + gravity * dt) * dt := by
  simp [update, applyGravity_y]

theorem update_velocityY (dt : F) (s : DudeMonster F) :
    (update dt s).velocityY =
      if s.onGround = true then s.velocityY
      else if s.y + (s.velocityY + gravity * dt) * dt ≤ -0.5 then 0
      else s.velocityY + gravity * dt := by
  simp [update, applyGravity_velocityY]

theorem update_onGround (dt : F) (s : DudeMonster F) :
    (update dt s).onGround =
      if s.onGround = true then true
      else if s.y + (s.velocityY + gravity * dt) * dt ≤ -0.5 then true
      else false := by
  simp [update, applyGravity_onGround]

theorem groundInv_congr {s t : DudeMonster ℚ} (hy : t.y = s.y) (hg : t.onGround = s.onGround)
    (hv : t.velocityY = s.velocityY) (h : GroundInv s) : GroundInv t := by
  unfold GroundInv at *
  rw [hy, hg, hv]
  exact h

theorem update_groundInv (dt : ℚ) {s : DudeMonster ℚ} (h : GroundInv s) :
    GroundInv (update dt s) := by
  unfold GroundInv at *
  rw [update_y, update_velocityY, update_onGround]
  cases hg : s.onGround
  · simp only [Bool.false_eq_true, if_false]
    split_ifs with hc
    · exact ⟨le_refl _, fun _ => ⟨rfl, rfl⟩⟩
    · exact ⟨le_of_lt (not_le.mp hc), fun hf => absurd hf (by simp)⟩
  · simp only [if_true]
    exact ⟨h.1, fun _ => h.2 hg⟩

theorem handleInput_groundInv (k : Keys) (dt : ℚ) {s : DudeMonster ℚ} (h : GroundInv s) :
    GroundInv (handleInput k dt s) := by
  unfold GroundInv at *
  rw [handleInput_y, handleInput_velocityY, handleInput_onGround]
  refine ⟨h.1, ?_⟩
  split_ifs with h1 h2
  · exact h.2
  · intro hf
    exact absurd hf (by simp)
  · exact h.2

theorem step_groundInv (c : Call ℚ) {s : DudeMonster ℚ} (h : GroundInv s) :
    GroundInv (step c s) := by
  cases c with
  | takeDamage =>
    exact groundInv_congr (takeDamage_y _) (takeDamage_onGround _) (takeDamage_velocityY _) h
  | handleInput k dt => exact handleInput_groundInv k dt h
  | startAttack a =>
    exact groundInv_congr (startAttack_y _ _) (startAttack_onGround _ _)
      (startAttack_velocityY _ _) h
  | setState a =>
    exact groundInv_congr (setState_y _ _) (setState_onGround _ _) (setState_velocityY _ _) h
  | update dt => exact update_groundInv dt h

theorem run_groundInv (cs : List (Call ℚ)) : ∀ {s : DudeMonster ℚ}, GroundInv s →
    GroundInv (run cs s) := by
  induction cs with
  | nil => intro s h; exact h
  | cons c cs ih => intro s h; exact ih (step_groundInv c h)

theorem mainPlayer_groundInv : GroundInv mainPlayerExact := by
  unfold GroundInv mainPlayerExact mainPlayer DudeMonster.init
  exact ⟨le_refl _, fun _ => ⟨rfl, rfl⟩⟩

/-- C9. Ground clamp invariant, in exact arithmetic. For the entity main
creates and every sequence of handleInput, takeDamage and update calls (startAttack and setState
calls are allowed as well), with any time steps, after the sequence
y >= -0.5, and if the ground-contact flag is true then y = -0.5 and
velocityY = 0. Moreover, for every airborne entity state, an update whose
integrated y is at most -0.5 sets y = -0.5, velocityY = 0 and the
ground-contact flag to true. -/
theorem ground_clamp (cs : List (Call ℚ)) (s : DudeMonster ℚ) (dt : ℚ) :
    (-0.5 ≤ (run cs mainPlayerExact).y ∧
      ((run cs mainPlayerExact).onGround = true →
        (run cs mainPlayerExact).y = -0.5 ∧ (run cs mainPlayerExact).velocityY = 0)) ∧
    (s.onGround = false → s.y + (s.velocityY + gravity * dt) * dt ≤ -0.5 →
      (update dt s).y = -0.5 ∧ (update dt s).velocityY = 0 ∧
        (update dt s).onGround = true) := by
  refine ⟨run_groundInv cs mainPlayer_groundInv, fun hg hc => ?_⟩
  rw [update_y, update_velocityY, update_onGround]
  simp [hg, hc]

/-- Witness of C9: the player of main jumps, flies for 0.1 and lands during a
long update; and the landing update on the state right after the jump. -/
theorem ground_clamp_witness :
    (-0.5 ≤ (run [.handleInput keysJump 0.1, .update 0.1, .update 2] mainPlayerExact).y ∧
      (run [.handleInput keysJump 0.1, .update 0.1, .update 2] mainPlayerExact).y = -0.5 ∧
      (run [.handleInput keysJump 0.1, .update 0.1, .update 2] mainPlayerExact).velocityY = 0) ∧
    ((update 2 (handleInput keysJump 0.1 mainPlayerExact)).y = -0.5 ∧
      (update 2 (handleInput keysJump 0.1 mainPlayerExact)).velocityY = 0 ∧
      (update 2 (handleInput keysJump 0.1 mainPlayerExact)).onGround = true) :=
  ⟨⟨(ground_clamp [.handleInput keysJump 0.1, .update 0.1, .update 2] mainPlayerExact 0).1.1,
      (ground_clamp [.handleInput keysJump 0.1, .update 0.1, .update 2] mainPlayerExact 0).1.2
        (by decide!)⟩,
    (ground_clamp [] (handleInput keysJump 0.1 mainPlayerExact) 2).2 (by decide!) (by decide!)⟩

/-- C10 (amended). Vertical integration step. Gravity is -15. For every
airborne entity state with position y and vertical velocity v and every time
step dt for which no ground contact occurs, update produces
velocityY = v + gravity * dt and y = y + (v + gravity * dt) * dt, that is, the
position is advanced with the velocity already updated in the same tick
(semi-implicit Euler), and the entity stays airborne. When the entity is on
the ground, update leaves y and velocityY unchanged. -/
theorem euler_step (s : DudeMonster F) (dt : F) :
    (gravity : F) = -15 ∧
      (s.onGround = false → ¬ s.y + (s.velocityY + gravity * dt) * dt ≤ -0.5 →
        (update dt s).velocityY = s.velocityY + gravity * dt ∧
          (update dt s).y = s.y + (s.velocityY + gravity * dt) * dt ∧
          (update dt s).y = s.y + (update dt s).velocityY * dt ∧
          (update dt s).onGround = false) ∧
      (s.onGround = true →
        (update dt s).y = s.y ∧ (update dt s).velocityY = s.velocityY) := by
  refine ⟨rfl, fun hg hc => ?_, fun hg => ?_⟩
  · rw [update_y, update_velocityY, update_onGround]
    simp [hg, hc]
  · rw [update_y, update_velocityY]
    simp [hg]

/-- Witness of C10 (amended): the player of main right after a jump, one
update of 0.1; and the player of main on the ground. -/
theorem euler_step_witness :
    ((update 0.1 (handleInput keysJump 0 mainPlayerExact)).velocityY =
        (handleInput keysJump 0 mainPlayerExact).velocityY + gravity * 0.1 ∧
      (update 0.1 (handleInput keysJump 0 mainPlayerExact)).y =
        (handleInput keysJump 0 mainPlayerExact).y +
          ((handleInput keysJump 0 mainPlayerExact).velocityY + gravity * 0.1) * 0.1 ∧
      (update 0.1 (handleInput keysJump 0 mainPlayerExact)).y =
        (handleInput keysJump 0 mainPlayerExact).y +
          (update 0.1 (handleInput keysJump 0 mainPlayerExact)).velocityY * 0.1 ∧
      (update 0.1 (handleInput keysJump 0 mainPlayerExact)).onGround = false) ∧
    ((update 0.1 mainPlayerExact).y = mainPlayerExact.y ∧
      (update 0.1 mainPlayerExact).velocityY = mainPlayerExact.velocityY) :=
  ⟨(euler_step (handleInput keysJump 0 mainPlayerExact) 0.1).2.1 (by decide!) (by decide!),
    (euler_step mainPlayerExact 0.1).2.2 rfl⟩

/-- Counterexample to C10 as stated, in exact arithmetic: the player of main
right after a jump (y = -0.5, velocityY = 8, airborne) and an update of 0.1 without ground
contact. The new velocity is 8 - 15 * 0.1 = 6.5 as claimed, but the new y is
-0.5 + 6.5 * 0.1 = 0.15, not -0.5 + 8 * 0.1 = 0.3: the position is advanced
with the velocity already updated, not with the velocity held at the start of
the tick. -/
theorem euler_step_counterexample :
    (handleInput keysJump 0 mainPlayerExact).onGround = false ∧
      (handleInput keysJump 0 mainPlayerExact).y = -0.5 ∧
      (handleInput keysJump 0 mainPlayerExact).velocityY = 8 ∧
      (update 0.1 (handleInput keysJump 0 mainPlayerExact)).onGround = false ∧
      (update 0.1 (handleInput keysJump 0 mainPlayerExact)).velocityY = 6.5 ∧
      (update 0.1 (handleInput keysJump 0 mainPlayerExact)).y = 0.15 ∧
      (update 0.1 (handleInput keysJump 0 mainPlayerExact)).y ≠
        (handleInput keysJump 0 mainPlayerExact).y +
          (handleInput keysJump 0 mainPlayerExact).velocityY * 0.1 := by
  decide!

/-! ## Frame duration consistency and reset on a state change -/

theorem setState_resets (a : AnimationState) (s : DudeMonster F)
    (h : (setState a s).currentState ≠ s.currentState) :
    (setState a s).currentFrame = 0 ∧ (setState a s).frameTimer = 0 := by
  rw [setState_currentState] at h
  rw [setState_currentFrame, setState_frameTimer, if_neg (Ne.symm h), if_neg (Ne.symm h)]
  exact ⟨rfl, rfl⟩

theorem startAttack_resets (a : AnimationState) (s : DudeMonster F)
    (h : (startAttack a s).currentState ≠ s.currentState) :
    (startAttack a s).currentFrame = 0 ∧ (startAttack a s).frameTimer = 0 := by
  rw [startAttack_currentState] at h
  rw [startAttack_frameTimer, if_neg (Ne.symm h)]
  exact ⟨startAttack_currentFrame a s, rfl⟩

theorem takeDamage_resets (s : DudeMonster F)
    (h : (takeDamage s).currentState ≠ s.currentState) :
    (takeDamage s).currentFrame = 0 ∧ (takeDamage s).frameTimer = 0 := by
  cases hh : s.isHurt
  · rw [takeDamage_of_not_hurt s hh] at h ⊢
    exact setState_resets HURT _ h
  · rw [takeDamage_of_hurt s hh] at h
    exact absurd rfl h

/-- The attack block of handleInput either leaves the animation fields and
the attack flag as they were, or ends with the attack flag set and, when it
changed the animation state, with frame index and frame timer 0. -/
theorem attackInput_cases (k : Keys) (s : DudeMonster F) :
    ((attackInput k s).currentState = s.currentState ∧
        (attackInput k s).currentFrame = s.currentFrame ∧
        (attackInput k s).frameTimer = s.frameTimer ∧
        (attackInput k s).isAttacking = s.isAttacking) ∨
      ((attackInput k s).isAttacking = true ∧
        ((attackInput k s).currentState ≠ s.currentState →
          (attackInput k s).currentFrame = 0 ∧ (attackInput k s).frameTimer = 0)) := by
  simp only [attackInput]
  split_ifs with h1 h2 h2
  · simp at h2
  · exact Or.inr ⟨startAttack_isAttacking _ _, startAttack_resets ATTACK1 s⟩
  · exact Or.inr ⟨startAttack_isAttacking _ _, startAttack_resets ATTACK2 s⟩
  · exact Or.inl ⟨rfl, rfl, rfl, rfl⟩

theorem selectAnimation_resets (m r : Bool) (s : DudeMonster F)
    (h : (selectAnimation m r s).currentState ≠ s.currentState) :
    (selectAnimation m r s).currentFrame = 0 ∧ (selectAnimation m r s).frameTimer = 0 := by
  unfold selectAnimation at h ⊢
  split_ifs at h ⊢ <;> first | exact setState_resets _ s h | exact absurd rfl h

theorem handleInput_resets (k : Keys) (dt : F) (s : DudeMonster F)
    (h : (handleInput k dt s).currentState ≠ s.currentState) :
    (handleInput k dt s).currentFrame = 0 ∧ (handleInput k dt s).frameTimer = 0 := by
  unfold handleInput at h ⊢
  split_ifs at h ⊢ with hH
  · exact absurd rfl h
  · simp only at h ⊢
    rcases attackInput_cases k
      (jumpInput k { s with facingRight := (horizontalMovement k dt s).facingRight }) with
      ⟨c1, c2, c3, _⟩ | ⟨c1, c2⟩
    · have hs : (moveAndClamp (horizontalMovement k dt s).deltaX (attackInput k
          (jumpInput k { s with facingRight := (horizontalMovement k dt s).facingRight
            }))).currentState = s.currentState := by
        rw [moveAndClamp_currentState, c1, jumpInput_currentState]
      exact selectAnimation_resets _ _ _ (by rw [hs]; exact h)
    · rw [selectAnimation_of_attacking _ _ _ (by rw [moveAndClamp_isAttacking]; exact c1)]
        at h ⊢
      rw [moveAndClamp_currentState] at h
      rw [moveAndClamp_currentFrame, moveAndClamp_frameTimer]
      exact c2 (by rw [jumpInput_currentState]; exact h)

theorem step_resets (c : Call F) (s : DudeMonster F)
    (h : (step c s).currentState ≠ s.currentState) :
    (step c s).currentFrame = 0 ∧ (step c s).frameTimer = 0 := by
  cases c with
  | takeDamage => exact takeDamage_resets s h
  | handleInput k dt => exact handleInput_resets k dt s h
  | startAttack a => exact startAttack_resets a s h
  | setState a => exact setState_resets a s h
  | update dt =>
    exact absurd (update_currentState dt s) h

theorem switchFrameDuration_values (a : AnimationState) :
    (switchFrameDuration a : F) =
      if a = ATTACK1 ∨ a = ATTACK2 ∨ a = RUN then 0.08 else if a = HURT then 0.15 else 0.1 := by
  cases a <;> simp [switchFrameDuration]

/-- C11. Frame-duration consistency. Starting from the constructed entity,
after every sequence of takeDamage, handleInput, startAttack, setState and
update calls, the stored frameDuration is the per-state value of the current
animation state: 0.08 for ATTACK1, ATTACK2 and RUN, 0.15 for HURT, and 0.1 for
every other state. And for every entity state, every such call that changes
the animation state ends with frame index 0 and frame timer 0. -/
theorem frame_duration_consistency (posX posY w h moveSpeed : F) (cs : List (Call F))
    (s : DudeMonster F) (c : Call F) :
    (run cs (DudeMonster.init posX posY w h moveSpeed)).frameDuration =
        (if (run cs (DudeMonster.init posX posY w h moveSpeed)).currentState = ATTACK1 ∨
            (run cs (DudeMonster.init posX posY w h moveSpeed)).currentState = ATTACK2 ∨
            (run cs (DudeMonster.init posX posY w h moveSpeed)).currentState = RUN then 0.08
          else if (run cs (DudeMonster.init posX posY w h moveSpeed)).currentState = HURT
            then 0.15
          else 0.1) ∧
      ((step c s).currentState ≠ s.currentState →
        (step c s).currentFrame = 0 ∧ (step c s).frameTimer = 0) := by
  refine ⟨?_, step_resets c s⟩
  rw [← switchFrameDuration_values]
  exact run_durationConsistent cs (init_durationConsistent posX posY w h moveSpeed)

/-- Witness of C11: the stored frame duration after a run to the right, an
update and a damage event on the player of main; and damage arriving after an
update of 0.15, which had advanced the frame index to 1. -/
theorem frame_duration_consistency_witness :
    (run [.handleInput keysRunRight 0.1, .update 0.1, .takeDamage]
        (DudeMonster.init 0 (-0.5) 0.4 0.5 (4 : ℚ))).frameDuration =
        (if (run [.handleInput keysRunRight 0.1, .update 0.1, .takeDamage]
              (DudeMonster.init 0 (-0.5) 0.4 0.5 (4 : ℚ))).currentState = ATTACK1 ∨
            (run [.handleInput keysRunRight 0.1, .update 0.1, .takeDamage]
              (DudeMonster.init 0 (-0.5) 0.4 0.5 (4 : ℚ))).currentState = ATTACK2 ∨
            (run [.handleInput keysRunRight 0.1, .update 0.1, .takeDamage]
              (DudeMonster.init 0 (-0.5) 0.4 0.5 (4 : ℚ))).currentState = RUN then 0.08
          else if (run [.handleInput keysRunRight 0.1, .update 0.1, .takeDamage]
              (DudeMonster.init 0 (-0.5) 0.4 0.5 (4 : ℚ))).currentState = HURT
            then 0.15
          else 0.1) ∧
      ((step .takeDamage (update 0.15 mainPlayerExact)).currentFrame = 0 ∧
        (step .takeDamage (update 0.15 mainPlayerExact)).frameTimer = 0) :=
  ⟨(frame_duration_consistency 0 (-0.5) 0.4 0.5 (4 : ℚ)
      [.handleInput keysRunRight 0.1, .update 0.1, .takeDamage]
      (update 0.15 mainPlayerExact) .takeDamage).1,
    (frame_duration_consistency 0 (-0.5) 0.4 0.5 (4 : ℚ)
      [.handleInput keysRunRight 0.1, .update 0.1, .takeDamage]
      (update 0.15 mainPlayerExact) .takeDamage).2 (by decide!)⟩

/-! ## Exact and single precision runs

The two arithmetics can take a branch at different updates; the theorems
stated for every arithmetic hold of both runs. -/

/-- Runs of the player of main in the two arithmetics. With 32 updates of
0.003125 the exact frame timer reaches 0.1 at the 32nd update, the single
precision one only at the 33rd. Right after a jump, an update of 1e-9 leaves
the exact entity airborne, while in single precision y rounds back to -0.5
and the entity lands. -/
theorem exact_and_single_precision_runs :
    ((updates (List.replicate 32 0.003125) mainPlayerExact).currentFrame = 1 ∧
      (updates (List.replicate 32 0.003125) mainPlayer32).currentFrame = 0 ∧
      (updates (List.replicate 33 0.003125) mainPlayer32).currentFrame = 1) ∧
    ((update 1e-9 (handleInput keysJump 0 mainPlayerExact)).onGround = false ∧
      (update 1e-9 (handleInput keysJump 0 mainPlayer32)).onGround = true) := by
  decide!

end M5Sprite
